import Mathlib

/-!
Shallow embedding of the attribute-container storage engine of the plaso
repository: `plaso/storage/fake/fake_store.py` and
`plaso/storage/sqlite/sqlite_file.py`.  Parts of the repository that the
sources reference but that are not part of the analysed tree
(`plaso/storage/interface.py`, `plaso/storage/identifiers.py`,
`plaso/storage/fake/event_heap.py`, `plaso/lib/definitions.py`, the JSON
serializer and the container classes) are modelled from the specification;
each such definition carries a doc comment starting with
`Modelled from the spec:`.
-/

namespace Plaso

/-- Identifier of an attribute container: either a fake (in-memory sequence)
identifier or a SQL table (row) identifier, mirroring
`plaso/storage/identifiers.py` as described by the spec (two identifier
kinds with a sequence number and a string serialization). -/
inductive Identifier where
  | fake (sequence_number : Int)
  | sqlTable (container_type : String) (sequence_number : Int)
deriving DecidableEq

/-- Modelled from the spec: both identifier kinds expose `sequence_number`. -/
def Identifier.sequenceNumber : Identifier → Int
  | .fake n => n
  | .sqlTable _ n => n

/-- Modelled from the spec: `CopyToString` serializes an identifier to a
string (the fake identifier prints its sequence number; the SQL table
identifier prints table and row). -/
def Identifier.CopyToString : Identifier → String
  | .fake n => toString n
  | .sqlTable t n => t ++ "." ++ toString n

/-- Runtime value of a container attribute.  Scalar values mirror the schema
semantic types; `ident` holds an identifier object; `blob` stands for any
other opaque Python value (serialized forms, path specs, date-time values). -/
inductive AttributeValue where
  | int (value : Int)
  | str (value : String)
  | boolean (value : Bool)
  | strList (value : List String)
  | ident (value : Identifier)
  | blob (value : String)
deriving DecidableEq

/-- Attribute container: a type tag, named runtime attributes in insertion
order (Python object `__dict__`), and the store-assigned identifier
(`GetIdentifier`/`SetIdentifier`). -/
structure Container where
  container_type : String
  attrs : List (String × AttributeValue)
  identifier : Option Identifier
deriving DecidableEq

/-- Python exceptions raised by the engine.  `ioError` covers `IOError` and
`OSError` (aliases in Python 3); the other constructors are the
backend-specific or builtin exceptions that are distinct from `IOError`. -/
inductive PyExc where
  | ioError (message : String)
  | valueError (message : String)
  | typeError (message : String)
  | attributeError (message : String)
  | sqliteOperationalError (message : String)
  | sqliteInterfaceError (message : String)
deriving DecidableEq

/-- Association-list lookup by key; `none` when the key is absent.  Models a
Python `dict.get(key, None)` (keys are unique in all lists we build). -/
def alistGet {β : Type} (l : List (String × β)) (k : String) : Option β :=
  (l.find? (fun p => p.1 == k)).map (·.2)

/-- Association-list lookup with an arbitrary decidable key type (used for
the cache, keyed by container type and index). -/
def alistGetP {α β : Type} [DecidableEq α] (l : List (α × β)) (k : α) : Option β :=
  (l.find? (fun p => decide (p.1 = k))).map (·.2)

/-- Association-list update: replaces the value of an existing key in place
(keeping its position, like a Python `dict`) or appends a new binding. -/
def alistSet {β : Type} : List (String × β) → String → β → List (String × β)
  | [], k, v => [(k, v)]
  | p :: rest, k, v =>
      if p.1 == k then (k, v) :: rest else p :: alistSet rest k v

/-- Python `getattr(container, name, None)` on a container's instance
attributes. -/
def getattr (c : Container) (name : String) : Option AttributeValue :=
  alistGet c.attrs name

/-- Python `setattr(container, name, value)`. -/
def setattr (c : Container) (name : String) (value : AttributeValue) : Container :=
  { c with attrs := alistSet c.attrs name value }

/-- Python `delattr(container, name)`. -/
def delattr (c : Container) (name : String) : Container :=
  { c with attrs := c.attrs.filter (fun p => p.1 != name) }

/-! Constants of `plaso/lib/definitions.py` used by the storage code.
They are not part of the analysed tree. -/

/-- Modelled from the spec: `definitions.COMPRESSION_FORMAT_NONE`. -/
def COMPRESSION_FORMAT_NONE : String := "none"

/-- Modelled from the spec: `definitions.COMPRESSION_FORMAT_ZLIB`. -/
def COMPRESSION_FORMAT_ZLIB : String := "zlib"

/-- Modelled from the spec: `definitions.COMPRESSION_FORMATS`
(compression is `none` or `zlib`). -/
def COMPRESSION_FORMATS : List String := [COMPRESSION_FORMAT_NONE, COMPRESSION_FORMAT_ZLIB]

/-- Modelled from the spec: `definitions.SERIALIZER_FORMAT_JSON`. -/
def SERIALIZER_FORMAT_JSON : String := "json"

/-- Modelled from the spec: `definitions.STORAGE_TYPE_SESSION`. -/
def STORAGE_TYPE_SESSION : String := "session"

/-- Modelled from the spec: `definitions.STORAGE_TYPE_TASK`. -/
def STORAGE_TYPE_TASK : String := "task"

/-- Modelled from the spec: `definitions.STORAGE_TYPES`
(storage type is `session` or `task`). -/
def STORAGE_TYPES : List String := [STORAGE_TYPE_SESSION, STORAGE_TYPE_TASK]

/-! Constants of `plaso/storage/interface.py` (`BaseStore`), which is not
part of the analysed tree. -/

/-- Modelled from the spec: the container types known to the base store
registry (the spec names events, event data, event data streams, event
sources, event tags, the warning types, session and task bookkeeping types,
system configuration and the Windows EventLog provider type). -/
def CONTAINER_TYPES : List String :=
  ["analysis_report", "analysis_warning", "event", "event_data",
   "event_data_stream", "event_source", "event_tag", "extraction_warning",
   "preprocessing_warning", "recovery_warning", "session_completion",
   "session_configuration", "session_start", "system_configuration",
   "task_completion", "task_start", "windows_eventlog_provider"]

/-- Modelled from the spec: container types exclusive to session stores. -/
def SESSION_STORE_ONLY_CONTAINER_TYPES : List String :=
  ["session_completion", "session_configuration", "session_start",
   "system_configuration"]

/-- Modelled from the spec: container types exclusive to task stores. -/
def TASK_STORE_ONLY_CONTAINER_TYPES : List String :=
  ["task_completion", "task_start"]

/-- Modelled from the spec: the per-(store, container type) sequence
counters of the base store; an add increments the counter of the type and
uses the new value (sequence numbers are the 1-based row numbers). -/
def getNextSequenceNumber (seqs : List (String × Nat)) (t : String) :
    Nat × List (String × Nat) :=
  let n := (alistGet seqs t).getD 0 + 1
  (n, alistSet seqs t n)

/-- Modelled from the spec: `_SetAttributeContainerNextSequenceNumber`
overwrites the counter of a container type. -/
def setSequenceNumber (seqs : List (String × Nat)) (t : String) (n : Nat) :
    List (String × Nat) :=
  alistSet seqs t n

/-- Counter value of a container type (0 when never set). -/
def seqValue (seqs : List (String × Nat)) (t : String) : Nat :=
  (alistGet seqs t).getD 0

namespace SQLiteStorageFile

/-- `_FORMAT_VERSION` of `SQLiteStorageFile`. -/
def FORMAT_VERSION : Int := 20210621

/-- `_WITH_SCHEMA_FORMAT_VERSION`: the earliest format version with a schema. -/
def WITH_SCHEMA_FORMAT_VERSION : Int := 20210621

/-- `_APPEND_COMPATIBLE_FORMAT_VERSION`. -/
def APPEND_COMPATIBLE_FORMAT_VERSION : Int := 20190309

/-- `_UPGRADE_COMPATIBLE_FORMAT_VERSION`. -/
def UPGRADE_COMPATIBLE_FORMAT_VERSION : Int := 20210621

/-- `_READ_COMPATIBLE_FORMAT_VERSION`. -/
def READ_COMPATIBLE_FORMAT_VERSION : Int := 20190309

/-- `_REFERENCED_CONTAINER_TYPES`: container types that are referenced from
other container types. -/
def REFERENCED_CONTAINER_TYPES : List String :=
  ["event", "event_data", "event_data_stream", "event_source"]

/-- `_MAXIMUM_CACHED_CONTAINERS`. -/
def MAXIMUM_CACHED_CONTAINERS : Nat := 32 * 1024

/-- `_CONTAINER_SCHEMAS`: schema of each container type as an ordered list of
(field name, semantic type).  Each list is given in the sorted field-name
order that the source obtains through `sorted(schema.items())`. -/
def CONTAINER_SCHEMAS : String → List (String × String)
  | "analysis_warning" =>
      [("message", "str"), ("plugin_name", "str")]
  | "event" =>
      [("_event_data_row_identifier", "AttributeContainerIdentifier"),
       ("date_time", "dfdatetime.DateTimeValues"),
       ("timestamp", "int"),
       ("timestamp_desc", "str")]
  | "event_data_stream" =>
      [("file_entropy", "str"), ("md5_hash", "str"),
       ("path_spec", "dfvfs.PathSpec"), ("sha1_hash", "str"),
       ("sha256_hash", "str"), ("yara_match", "str")]
  | "event_source" =>
      [("data_type", "str"), ("file_entry_type", "str"),
       ("path_spec", "dfvfs.PathSpec")]
  | "event_tag" =>
      [("_event_row_identifier", "AttributeContainerIdentifier"),
       ("labels", "List[str]")]
  | "extraction_warning" =>
      [("message", "str"), ("parser_chain", "str"),
       ("path_spec", "dfvfs.PathSpec")]
  | "preprocessing_warning" =>
      [("message", "str"), ("path_spec", "dfvfs.PathSpec"),
       ("plugin_name", "str")]
  | "recovery_warning" =>
      [("message", "str"), ("parser_chain", "str"),
       ("path_spec", "dfvfs.PathSpec")]
  | "windows_eventlog_provider" =>
      [("_system_configuration_row_identifier", "AttributeContainerIdentifier"),
       ("category_message_files", "List[str]"),
       ("event_message_files", "List[str]"),
       ("log_source", "str"), ("log_type", "str"),
       ("parameter_message_files", "List[str]")]
  | _ => []

/-- `_CONTAINER_SCHEMA_IDENTIFIER_MAPPINGS`: per container type, the triples
(referenced container type, runtime attribute name, serialized attribute
name). -/
def CONTAINER_SCHEMA_IDENTIFIER_MAPPINGS : String → List (String × String × String)
  | "event" => [("event_data", "_event_data_identifier", "_event_data_row_identifier")]
  | "event_tag" => [("event", "_event_identifier", "_event_row_identifier")]
  | _ => []

/-- Keys of `_CONTAINER_SCHEMA_TO_SQLITE_TYPE_MAPPINGS`: the schema semantic
types that map to a native SQLite column type. -/
def SQLITE_MAPPED_TYPES : List String :=
  ["AttributeContainerIdentifier", "bool", "int", "str", "timestamp"]

end SQLiteStorageFile

/-! The fake (in-memory only) store, `plaso/storage/fake/fake_store.py`.
This is the value-level model: containers are stored by value.  Python
deep-copies the container on a new write, so the stored value is immune to
later mutation of the producer's object; object aliasing, which matters for
the update path, is modelled separately further below with an explicit
heap. -/

/-- Time range used to filter events, `plaso/lib/storage (TimeRange)`.
Modelled from the spec: an inclusive timestamp interval whose endpoints are
optional. -/
structure TimeRange where
  start_timestamp : Option Int
  end_timestamp : Option Int
deriving DecidableEq

/-- Modelled from the spec: event tags reference their event through the
runtime attribute `_event_identifier`; `GetEventIdentifier` reads it
(`None` when unset). -/
def Container.GetEventIdentifier (c : Container) : Option Identifier :=
  match getattr c "_event_identifier" with
  | some (.ident i) => some i
  | _ => none

/-- Modelled from the spec: event-data containers expose
`GetEventDataStreamIdentifier`, reading the runtime attribute
`_event_data_stream_identifier`. -/
def Container.GetEventDataStreamIdentifier (c : Container) : Option AttributeValue :=
  getattr c "_event_data_stream_identifier"

/-- Timestamp attribute of an event container, when it is an integer. -/
def Container.eventTimestamp (c : Container) : Option Int :=
  match getattr c "timestamp" with
  | some (.int t) => some t
  | _ => none

/-- Timestamp of an event with integer default 0; only used on events whose
timestamp is known to be an integer. -/
def Container.tsVal (c : Container) : Int :=
  (c.eventTimestamp).getD 0

namespace EventHeap

/-- Modelled from the spec: the event heap orders its entries by
(timestamp, insertion index), a total order because insertion indices are
distinct. -/
def lexLe (p q : Nat × Container) : Bool :=
  decide (p.2.tsVal < q.2.tsVal) ||
    (decide (p.2.tsVal = q.2.tsVal) && decide (p.1 ≤ q.1))

/-- Modelled from the spec: `EventHeap.PopEvents` drains the pushed
(event, index) entries in increasing (timestamp, insertion index) order. -/
def PopEvents (entries : List (Nat × Container)) : List Container :=
  (entries.mergeSort lexLe).map (·.2)

end EventHeap

/-- State of a `FakeStore`: per container type an insertion-ordered mapping
from serialized identifier string to container, the event-tag side index,
the open flag, and the base-store sequence counters (modelled from the
spec). -/
structure FakeStore where
  attribute_containers : List (String × List (String × Container))
  event_tag_per_event_identifier : List (String × Container)
  is_open : Bool
  sequence_numbers : List (String × Nat)
deriving DecidableEq

namespace FakeStore

/-- A fresh fake store (`FakeStore.__init__`). -/
def new : FakeStore :=
  { attribute_containers := [], event_tag_per_event_identifier := [],
    is_open := false, sequence_numbers := [] }

/-- `FakeStore._RaiseIfNotReadable`: raises when the store is closed. -/
def RaiseIfNotReadable (st : FakeStore) : Except PyExc Unit :=
  if !st.is_open then
    .error (.ioError "Unable to write to closed storage writer.")
  else .ok ()

/-- `FakeStore._RaiseIfNotWritable`: raises when the store is closed. -/
def RaiseIfNotWritable (st : FakeStore) : Except PyExc Unit :=
  if !st.is_open then
    .error (.ioError "Unable to write to closed storage writer.")
  else .ok ()

/-- `FakeStore._WriteExistingAttributeContainer`: requires a fake identifier
and an existing entry, then overwrites the entry with the caller's
container. -/
def WriteExistingAttributeContainer (st : FakeStore) (container : Container) :
    Except PyExc FakeStore := do
  match container.identifier with
  | some (.fake n) =>
    let lookup_key := (Identifier.fake n).CopyToString
    match alistGet st.attribute_containers container.container_type with
    | none => throw (.ioError "Missing attribute container")
    | some containers =>
      if (alistGet containers lookup_key).isNone then
        throw (.ioError "Missing attribute container")
      else
        let containers := alistSet containers lookup_key container
        let acs := alistSet st.attribute_containers container.container_type containers
        pure { st with attribute_containers := acs }
  | _ => throw (.ioError "Unsupported attribute container identifier type")

/-- `FakeStore._WriteNewAttributeContainer`: assigns the next sequence
number as a fake identifier, stores a deep copy under the serialized
identifier string, and maintains the event-tag side index.  The returned
container is the caller's container with the identifier set (Python mutates
it in place before taking the deep copy). -/
def WriteNewAttributeContainer (st : FakeStore) (container : Container) :
    Except PyExc (FakeStore × Container) := do
  let containers := (alistGet st.attribute_containers container.container_type).getD []
  let (next_sequence_number, seqs) :=
    getNextSequenceNumber st.sequence_numbers container.container_type
  let identifier := Identifier.fake (Int.ofNat next_sequence_number)
  let container := { container with identifier := some identifier }
  let lookup_key := identifier.CopyToString
  -- copy.deepcopy: the stored value is a copy of the container at this point
  let stored := container
  let acs := alistSet st.attribute_containers container.container_type (alistSet containers lookup_key stored)
  let st := { st with sequence_numbers := seqs, attribute_containers := acs }
  if container.container_type == "event_tag" then
    match stored.GetEventIdentifier with
    | none => throw (.attributeError "NoneType object has no attribute CopyToString")
    | some event_identifier =>
      let key := event_identifier.CopyToString
      let tags := alistSet st.event_tag_per_event_identifier key stored
      pure ({ st with event_tag_per_event_identifier := tags }, container)
  else
    pure (st, container)

/-- `FakeStore.Close`. -/
def Close (st : FakeStore) : Except PyExc FakeStore :=
  if !st.is_open then .error (.ioError "Store already closed.")
  else .ok { st with is_open := false }

/-- `FakeStore.Open`. -/
def Open (st : FakeStore) : Except PyExc FakeStore :=
  if st.is_open then .error (.ioError "Store already opened.")
  else .ok { st with is_open := true }

/-- `FakeStore.GetAttributeContainerByIdentifier`: plain dictionary lookup;
note that the source performs no open/closed check here. -/
def GetAttributeContainerByIdentifier (st : FakeStore) (container_type : String)
    (identifier : Identifier) : Except PyExc (Option Container) :=
  let containers := (alistGet st.attribute_containers container_type).getD []
  .ok (alistGet containers identifier.CopyToString)

/-- `FakeStore.GetAttributeContainerByIndex`: raises on an unsupported
container type, returns `None` when the index is out of range. -/
def GetAttributeContainerByIndex (st : FakeStore) (container_type : String)
    (index : Int) : Except PyExc (Option Container) := do
  if !(CONTAINER_TYPES.contains container_type) then
    throw (.ioError "Unsupported attribute container type")
  let containers := (alistGet st.attribute_containers container_type).getD []
  let number_of_containers : Int := Int.ofNat containers.length
  if index < 0 || index ≥ number_of_containers then
    pure none
  else
    pure ((containers.get? index.toNat).map (·.2))

/-- `FakeStore.GetAttributeContainers`: the stored containers of a type in
insertion order. -/
def GetAttributeContainers (st : FakeStore) (container_type : String) :
    List Container :=
  ((alistGet st.attribute_containers container_type).getD []).map (·.2)

/-- `FakeStore.GetEventTagByEventIdentifier`: requires a fake identifier and
consults the side index. -/
def GetEventTagByEventIdentifier (st : FakeStore) (event_identifier : Identifier) :
    Except PyExc (Option Container) :=
  match event_identifier with
  | .fake _ =>
    .ok (alistGet st.event_tag_per_event_identifier event_identifier.CopyToString)
  | _ => .error (.ioError "Unsupported event identifier type")

/-- `FakeStore.GetNumberOfAttributeContainers`. -/
def GetNumberOfAttributeContainers (st : FakeStore) (container_type : String) : Nat :=
  ((alistGet st.attribute_containers container_type).getD []).length

/-- `FakeStore.HasAttributeContainers`. -/
def HasAttributeContainers (st : FakeStore) (container_type : String) : Bool :=
  !((alistGet st.attribute_containers container_type).getD []).isEmpty

/-- Filter step of `FakeStore.GetSortedEvents`: an event is skipped when a
time range is given and its timestamp falls outside it.  The comparisons
mirror Python evaluation order and raise `TypeError` when the timestamp or a
range endpoint is `None`. -/
def filterEvent (time_range : Option TimeRange) (event : Container) :
    Except PyExc Bool :=
  match time_range with
  | none => .ok true
  | some r =>
    match event.eventTimestamp with
    | none => .error (.typeError "unorderable types")
    | some ts =>
      match r.start_timestamp with
      | none => .error (.typeError "unorderable types")
      | some s =>
        if ts < s then .ok false
        else
          match r.end_timestamp with
          | none => .error (.typeError "unorderable types")
          | some e => .ok (decide (ts ≤ e))

/-- The `for event_index, event in enumerate(generator)` loop of
`FakeStore.GetSortedEvents`: pushes each non-skipped event with its
insertion index. -/
def pushEntries (time_range : Option TimeRange) :
    List (Nat × Container) → Except PyExc (List (Nat × Container))
  | [] => .ok []
  | p :: rest => do
    let keep ← filterEvent time_range p.2
    let tail ← pushEntries time_range rest
    pure (if keep then p :: tail else tail)

/-- `FakeStore.GetSortedEvents`: raises when closed, filters events by the
time range and drains them from the event heap in (timestamp, insertion
index) order. -/
def GetSortedEvents (st : FakeStore) (time_range : Option TimeRange) :
    Except PyExc (List Container) := do
  if !st.is_open then
    throw (.ioError "Unable to read from closed storage writer.")
  let events := st.GetAttributeContainers "event"
  let entries ← pushEntries time_range events.enum
  pure (EventHeap.PopEvents entries)

/-- Modelled from the spec: `interface.BaseStore.AddAttributeContainer`
checks writability and delegates to `_WriteNewAttributeContainer`. -/
def AddAttributeContainer (st : FakeStore) (container : Container) :
    Except PyExc (FakeStore × Container) := do
  st.RaiseIfNotWritable
  st.WriteNewAttributeContainer container

/-- Modelled from the spec: `interface.BaseStore.UpdateAttributeContainer`
checks writability and delegates to `_WriteExistingAttributeContainer`. -/
def UpdateAttributeContainer (st : FakeStore) (container : Container) :
    Except PyExc FakeStore := do
  st.RaiseIfNotWritable
  st.WriteExistingAttributeContainer container

end FakeStore

/-! The SQLite-based storage file, `plaso/storage/sqlite/sqlite_file.py`. -/

/-- Value stored in a SQLite column: an integer or a text.  `Option SQLValue`
with `none` stands for SQL NULL (a Python `None` binding). -/
inductive SQLValue where
  | int (value : Int)
  | text (value : String)
deriving DecidableEq

/-- A stored row: column name to column value.  The implicit
`_identifier INTEGER PRIMARY KEY AUTOINCREMENT` column equals the 1-based
position of the row in its table (rows are never deleted), so it is kept
positional rather than as a column. -/
def Row : Type := List (String × Option SQLValue)

instance : DecidableEq Row := by unfold Row; infer_instance

/-- Column value of a row (NULL when the column is absent). -/
def rowVal (row : Row) (column : String) : Option SQLValue :=
  (alistGet row column).join

/-- Modelled from the spec: the JSON serializer encodes a single attribute
value to its textual serialized form (`WriteSerialized` on a value). -/
def writeSerializedValue : AttributeValue → String
  | .int v => "json-int:" ++ toString v
  | .str s => "json-str:" ++ s
  | .boolean b => "json-bool:" ++ toString b
  | .strList l => "json-list:" ++ String.intercalate "\x00" l
  | .ident i => "json-ident:" ++ i.CopyToString
  | .blob s => s

/-- Modelled from the spec: `ReadSerialized` decodes a stored textual form;
the decoded payload is kept opaque (no claim depends on the round-trip). -/
def readSerializedValue (s : String) : AttributeValue :=
  .blob s

/-- Modelled from the spec: the JSON serializer encodes a whole container to
a self-describing byte string (legacy `_data` column).  The encoding always
carries the container type, hence is never empty. -/
def writeSerializedContainer (c : Container) : String :=
  "json-container:" ++ c.container_type ++ ":" ++
    String.intercalate ";" (c.attrs.map (fun p => p.1 ++ "=" ++ writeSerializedValue p.2))

/-- Modelled from the spec: decoding a legacy serialized container
reconstructs a container of the requested type; the payload is kept
opaque. -/
def readSerializedContainer (container_type : String) (s : String) : Container :=
  { container_type := container_type, attrs := [("_serialized", .blob s)],
    identifier := none }

/-- Modelled from the spec: `zlib.compress` (injective wrapping of the
serialized bytes). -/
def zlibCompress (s : String) : String :=
  "zlib:" ++ s

/-- Python decimal digit test. -/
def isDecDigit (c : Char) : Bool :=
  '0' ≤ c && c ≤ '9'

/-- Value of a decimal digit. -/
def digitVal (c : Char) : Nat :=
  c.toNat - '0'.toNat

/-- Digit tail of a Python base-10 integer literal: digits possibly
separated by single underscores (an underscore must sit between two
digits). -/
def pyDigitsAux : List Char → Nat → Option Nat
  | [], acc => some acc
  | '_' :: c :: rest, acc =>
      if isDecDigit c then pyDigitsAux rest (acc * 10 + digitVal c) else none
  | c :: rest, acc =>
      if isDecDigit c then pyDigitsAux rest (acc * 10 + digitVal c) else none

/-- Nonempty digit sequence of a Python base-10 integer literal. -/
def pyDigits : List Char → Option Nat
  | [] => none
  | c :: rest => if isDecDigit c then pyDigitsAux rest (digitVal c) else none

/-- ASCII whitespace stripped by Python `int()` around a numeric literal. -/
def isPySpace (c : Char) : Bool :=
  c == ' ' || c == '\t' || c == '\n' || c == '\r' || c == '\x0b' || c == '\x0c'

/-- Drops leading whitespace characters. -/
def dropLeadingSpace : List Char → List Char
  | [] => []
  | c :: rest => if isPySpace c then dropLeadingSpace rest else c :: rest

/-- Strips leading and trailing whitespace. -/
def pyStrip (cs : List Char) : List Char :=
  (dropLeadingSpace ((dropLeadingSpace cs).reverse)).reverse

/-- Python `int(s, 10)`: optional surrounding whitespace, optional sign,
decimal digits with optional single underscore separators.  (Python also
accepts non-ASCII decimal digits and some further Unicode whitespace; those
are not modelled.)  Returns `none` when Python raises `ValueError`. -/
def pyInt (s : String) : Option Int :=
  match pyStrip s.toList with
  | '-' :: rest => (pyDigits rest).map (fun n => -(Int.ofNat n))
  | '+' :: rest => (pyDigits rest).map Int.ofNat
  | cs => (pyDigits cs).map Int.ofNat

/-- The metadata values read from the `metadata` table
(`dict` of key to value; `none` stands for an absent key). -/
structure MetadataValues where
  format_version : Option String
  compression_format : Option String
  serialization_format : Option String
  storage_type : Option String
deriving DecidableEq

namespace SQLiteStorageFile

/-- `SQLiteStorageFile._CheckStorageMetadata`: validates the metadata
values; returns the parsed integer format version (the source writes it
back into the dictionary).  Every raise in the source is an `IOError`; the
messages identify the spec error kinds (the format arguments of the source
messages are elided). -/
def CheckStorageMetadata (metadata_values : MetadataValues)
    (check_readable_only : Bool) : Except PyExc Int := do
  let format_version_str := metadata_values.format_version
  -- Python: `if not format_version` is true for a missing key or the empty string
  if format_version_str.getD "" == "" then
    throw (.ioError "Missing format version.")
  let format_version ←
    match pyInt (format_version_str.getD "") with
    | none => throw (.ioError "Invalid format version.")
    | some v => pure v
  if !check_readable_only && format_version < APPEND_COMPATIBLE_FORMAT_VERSION then
    throw (.ioError "Format version is too old and can no longer be written.")
  if format_version < READ_COMPATIBLE_FORMAT_VERSION then
    throw (.ioError "Format version is too old and can no longer be read.")
  if format_version > FORMAT_VERSION then
    throw (.ioError "Format version is too new and not yet supported.")
  if !(COMPRESSION_FORMATS.contains (metadata_values.compression_format.getD "?")) ||
      metadata_values.compression_format.isNone then
    throw (.ioError "Unsupported compression format")
  if metadata_values.serialization_format ≠ some SERIALIZER_FORMAT_JSON then
    throw (.ioError "Unsupported serialization format")
  if !(STORAGE_TYPES.contains (metadata_values.storage_type.getD "?")) ||
      metadata_values.storage_type.isNone then
    throw (.ioError "Unsupported storage type")
  pure format_version

/-- Contents of the SQLite database file: the `metadata` table (when
present) and one table of rows per created container type (an absent entry
is an absent table). -/
structure DBFile where
  metadata : Option (List (String × String))
  tables : List (String × List Row)
deriving DecidableEq

/-- State of a `SQLiteStorageFile` object together with its live database
connection.  `cursor` is false once the connection has been closed (the
source then sets `_connection` and `_cursor` to `None`, and any later query
raises `AttributeError`). -/
structure State where
  attribute_container_cache : List ((String × Int) × Container)
  cursor : Bool
  is_open : Bool
  read_only : Bool
  use_schema : Bool
  compression_format : String
  format_version : Int
  serialization_format : String
  storage_type : String
  metadata : Option (List (String × String))
  tables : List (String × List Row)
  sequence_numbers : List (String × Nat)
deriving DecidableEq

/-- `SQLiteStorageFile.__init__`: session stores default to zlib
compression, task stores to none. -/
def new (storage_type : String) : State :=
  let compression_format :=
    if storage_type == STORAGE_TYPE_SESSION then COMPRESSION_FORMAT_ZLIB
    else COMPRESSION_FORMAT_NONE
  { attribute_container_cache := [], cursor := false, is_open := false,
    read_only := true, use_schema := true,
    compression_format := compression_format,
    format_version := FORMAT_VERSION,
    serialization_format := SERIALIZER_FORMAT_JSON,
    storage_type := storage_type,
    metadata := none, tables := [], sequence_numbers := [] }

/-- Guard for every operation that executes a query: a closed connection has
`_cursor = None` and Python raises `AttributeError`. -/
def requireCursor (st : State) : Except PyExc Unit :=
  if st.cursor then .ok ()
  else .error (.attributeError "NoneType object has no attribute execute")

/-- `SQLiteStorageFile._CacheAttributeContainerByIndex`: event tags are not
cached on pre-schema formats; when full, the least recent entry (kept at
the back) is evicted; the new entry moves to the front. -/
def CacheAttributeContainerByIndex (st : State) (attribute_container : Container)
    (index : Int) : State :=
  if st.format_version < WITH_SCHEMA_FORMAT_VERSION &&
      attribute_container.container_type == "event_tag" then
    st
  else
    let cache := st.attribute_container_cache
    let cache := if MAXIMUM_CACHED_CONTAINERS ≤ cache.length then cache.dropLast else cache
    let key := (attribute_container.container_type, index)
    let cache := (key, attribute_container) :: cache.filter (fun p => p.1 ≠ key)
    { st with attribute_container_cache := cache }

/-- `SQLiteStorageFile._GetCachedAttributeContainer`: on a hit the entry
moves to the front. -/
def GetCachedAttributeContainer (st : State) (container_type : String)
    (index : Int) : Option Container × State :=
  let key := (container_type, index)
  match alistGetP st.attribute_container_cache key with
  | none => (none, st)
  | some c =>
    let cache := (key, c) :: st.attribute_container_cache.filter (fun p => p.1 ≠ key)
    (some c, { st with attribute_container_cache := cache })

/-- `SQLiteStorageFile._HasTable` (the `metadata` table is stored apart from
the container tables in this model). -/
def HasTable (st : State) (table_name : String) : Bool :=
  if table_name == "metadata" then st.metadata.isSome
  else (alistGet st.tables table_name).isSome

/-- `SQLiteStorageFile._RaiseIfNotReadable`. -/
def RaiseIfNotReadable (st : State) : Except PyExc Unit :=
  if !st.is_open then
    .error (.ioError "Unable to read from closed storage file.")
  else .ok ()

/-- `SQLiteStorageFile._RaiseIfNotWritable`: raises when closed, then when
read-only. -/
def RaiseIfNotWritable (st : State) : Except PyExc Unit :=
  if !st.is_open then
    .error (.ioError "Unable to write to closed storage file.")
  else if st.read_only then
    .error (.ioError "Unable to write to read-only storage file.")
  else .ok ()

/-- Loop body of `_UpdateAttributeContainerBeforeSerialize` over the
identifier mappings: the runtime attribute must hold a `SQLTableIdentifier`
(any other value, including an absent attribute, raises), and its sequence
number is written to the serialized attribute. -/
def applyIdentifierMappings :
    Container → List (String × String × String) → Except PyExc Container
  | container, [] => .ok container
  | container, (_, attribute_name, serialized_attribute_name) :: rest =>
    match getattr container attribute_name with
    | some (.ident (.sqlTable _ n)) =>
        applyIdentifierMappings
          (setattr container serialized_attribute_name (.int n)) rest
    | _ => .error (.ioError "Unsupported attribute container identifier type")

/-- `SQLiteStorageFile._UpdateAttributeContainerBeforeSerialize`. -/
def UpdateAttributeContainerBeforeSerialize (container : Container) :
    Except PyExc Container :=
  let identifier_mappings :=
    CONTAINER_SCHEMA_IDENTIFIER_MAPPINGS container.container_type
  if !identifier_mappings.isEmpty then
    applyIdentifierMappings container identifier_mappings
  else if container.container_type == "event_data" then
    -- `if event_data_stream_identifier:` only a None identifier is skipped
    match container.GetEventDataStreamIdentifier with
    | none => .ok container
    | some (.ident (.sqlTable _ n)) =>
        .ok (setattr container "_event_data_stream_row_identifier" (.int n))
    | some _ => .error (.ioError "Unsupported event data stream identifier type")
  else
    .ok container

/-- Loop body of `_UpdateAttributeContainerAfterDeserialize` over the
identifier mappings: the serialized attribute must be present (else
`ValueError`); it becomes a typed row identifier on the runtime attribute
and is deleted.  The stored column only ever holds integers; a non-integer
value is not modelled. -/
def applyIdentifierMappingsAfter :
    Container → List (String × String × String) → Except PyExc Container
  | container, [] => .ok container
  | container, (identifier_container_type, attribute_name,
      serialized_attribute_name) :: rest =>
    match getattr container serialized_attribute_name with
    | none => .error (.valueError "Missing row identifier attribute")
    | some (.int row_identifier) =>
        let identifier := Identifier.sqlTable identifier_container_type row_identifier
        let container := setattr container attribute_name (.ident identifier)
        applyIdentifierMappingsAfter (delattr container serialized_attribute_name) rest
    | some _ => .error (.typeError "row identifier attribute is not an integer")

/-- `SQLiteStorageFile._UpdateAttributeContainerAfterDeserialize`. -/
def UpdateAttributeContainerAfterDeserialize (container : Container) :
    Except PyExc Container :=
  let identifier_mappings :=
    CONTAINER_SCHEMA_IDENTIFIER_MAPPINGS container.container_type
  if !identifier_mappings.isEmpty then
    applyIdentifierMappingsAfter container identifier_mappings
  else if container.container_type == "event_data" then
    match getattr container "_event_data_stream_row_identifier" with
    | some (.int row_identifier) =>
      -- `if row_identifier:` Python truthiness skips None and 0
      if row_identifier ≠ 0 then
        let identifier := Identifier.sqlTable "event_data_stream" row_identifier
        let container := setattr container "_event_data_stream_identifier" (.ident identifier)
        .ok (delattr container "_event_data_stream_row_identifier")
      else .ok container
    | _ => .ok container
  else .ok container

/-- `SQLiteStorageFile._SerializeAttributeContainer`: serializes a container
for the legacy `_data` column; an empty encoding raises. -/
def SerializeAttributeContainer (attribute_container : Container) :
    Except PyExc String :=
  let attribute_container_data := writeSerializedContainer attribute_container
  if attribute_container_data == "" then
    .error (.ioError "Unable to serialize attribute container")
  else .ok attribute_container_data

/-- Binding of a Python value as a SQL query parameter: `None` binds NULL,
integers, strings and booleans bind natively, any other object raises a
`sqlite3.InterfaceError`. -/
def bindParam : Option AttributeValue → Except PyExc (Option SQLValue)
  | none => .ok none
  | some (.int i) => .ok (some (.int i))
  | some (.str s) => .ok (some (.text s))
  | some (.boolean b) => .ok (some (.int (if b then 1 else 0)))
  | some _ => .error (.sqliteInterfaceError "unsupported parameter type")

/-- Column value computed by the write loops of
`_WriteNewAttributeContainer` and `_WriteExistingAttributeContainer` for one
schema field: `bool` fields are cast with `int(...)`, other mapped scalar
types are bound directly, everything else is stored as its serialized
textual form.  (No declared schema uses `bool`; only the direct casts of
that branch are modelled.) -/
def encodeSchemaValue (data_type : String) :
    Option AttributeValue → Except PyExc (Option SQLValue)
  | none => .ok none
  | some av =>
    if data_type == "bool" then
      match av with
      | .boolean b => .ok (some (.int (if b then 1 else 0)))
      | .int i => .ok (some (.int i))
      | _ => .error (.valueError "invalid literal for int")
    else if SQLITE_MAPPED_TYPES.contains data_type then
      bindParam (some av)
    else
      .ok (some (.text (writeSerializedValue av)))

/-- The `for name, data_type in sorted(schema.items())` write loop shared
verbatim by `_WriteNewAttributeContainer` and
`_WriteExistingAttributeContainer`: one (column, value) pair per schema
field. -/
def buildSchemaRow (schema : List (String × String)) (container : Container) :
    Except PyExc Row :=
  schema.mapM (fun p => do
    let v ← encodeSchemaValue p.2 (getattr container p.1)
    pure (p.1, v))

/-- Modelled from the spec: `zlib.decompress`, inverse of the modelled
`zlib.compress`. -/
def zlibDecompress (s : String) : String :=
  s.drop 5

/-- Decoding of one selected column in
`_CreatetAttributeContainerFromRow`: NULL is skipped, `bool` fields are cast
back with `bool(...)`, mapped scalar types are assigned directly, and other
fields are deserialized.  (Columns of non-mapped fields only ever hold
text.) -/
def decodeSchemaColumn (container : Container) (schema : List (String × String))
    (name : String) (value : Option SQLValue) : Container :=
  match value with
  | none => container
  | some v =>
    let data_type := (alistGet schema name).getD ""
    if data_type == "bool" then
      match v with
      | .int i => setattr container name (.boolean (i != 0))
      | .text s => setattr container name (.boolean (s != ""))
    else if SQLITE_MAPPED_TYPES.contains data_type then
      match v with
      | .int i => setattr container name (.int i)
      | .text s => setattr container name (.str s)
    else
      match v with
      | .int i => setattr container name (readSerializedValue (toString i))
      | .text s => setattr container name (readSerializedValue s)

/-- `SQLiteStorageFile._CreatetAttributeContainerFromRow` (source spelling):
reconstructs a container from a selected row. -/
def CreatetAttributeContainerFromRow (st : State) (container_type : String)
    (column_names : List String) (row : Row) : Container :=
  let schema := CONTAINER_SCHEMAS container_type
  if st.use_schema && !schema.isEmpty then
    column_names.foldl
      (fun c name => decodeSchemaColumn c schema name (rowVal row name))
      { container_type := container_type, attrs := [], identifier := none }
  else
    let data :=
      match rowVal row "_data" with
      | some (.text s) => s
      | some (.int i) => toString i
      | none => ""
    let serialized_data :=
      if st.compression_format == COMPRESSION_FORMAT_ZLIB then zlibDecompress data
      else data
    readSerializedContainer container_type serialized_data

/-- Filter expression built by the callers of
`_GetAttributeContainersWithFilter` (the source assembles SQL text; the
expressions are represented structurally). -/
inductive RowFilter where
  | eqInt (column : String) (value : Int)
  | tsRange (column : String) (lower upper : Option Int)
deriving DecidableEq

/-- SQLite comparison `column >= n`: NULL compares false, TEXT sorts above
all numbers. -/
def sqlGe (v : Option SQLValue) (n : Int) : Bool :=
  match v with
  | some (.int x) => decide (n ≤ x)
  | some (.text _) => true
  | none => false

/-- SQLite comparison `column <= n`. -/
def sqlLe (v : Option SQLValue) (n : Int) : Bool :=
  match v with
  | some (.int x) => decide (x ≤ n)
  | some (.text _) => false
  | none => false

/-- Evaluation of a WHERE filter on a row (no filter accepts every row). -/
def evalRowFilter : Option RowFilter → Row → Bool
  | none, _ => true
  | some (.eqInt column value), row =>
    match rowVal row column with
    | some (.int x) => x == value
    | _ => false
  | some (.tsRange column lower upper), row =>
    (match lower with
     | none => true
     | some l => sqlGe (rowVal row column) l) &&
    (match upper with
     | none => true
     | some u => sqlLe (rowVal row column) u)

/-- SQLite ordering of column values for ORDER BY:
NULL < numbers < text. -/
def sqlValLe : Option SQLValue → Option SQLValue → Bool
  | none, _ => true
  | some _, none => false
  | some (.int i), some (.int j) => decide (i ≤ j)
  | some (.int _), some (.text _) => true
  | some (.text _), some (.int _) => false
  | some (.text s), some (.text t) => decide (s ≤ t)

/-- `SQLiteStorageFile._GetAttributeContainersWithFilter`: SELECT with an
optional WHERE filter and optional ORDER BY on a dedicated cursor, yielding
one container per row with its row identifier bound.  SQL leaves the order
of ORDER BY ties unspecified; the model realizes one permitted outcome by
sorting stably. -/
def GetAttributeContainersWithFilter (st : State) (container_type : String)
    (column_names : List String) (filter_expression : Option RowFilter)
    (order_by : Option String) : Except PyExc (List Container) := do
  requireCursor st
  match alistGet st.tables container_type with
  | none => throw (.ioError "Unable to query storage file for attribute container")
  | some rows =>
    let numbered := rows.enum.map (fun p => (Int.ofNat p.1 + 1, p.2))
    let selected := numbered.filter (fun p => evalRowFilter filter_expression p.2)
    let ordered :=
      match order_by with
      | none => selected
      | some col =>
          selected.mergeSort (fun p q => sqlValLe (rowVal p.2 col) (rowVal q.2 col))
    ordered.mapM (fun p => do
      let container := CreatetAttributeContainerFromRow st container_type column_names p.2
      let container := { container with identifier := some (.sqlTable container_type p.1) }
      UpdateAttributeContainerAfterDeserialize container)

/-- `SQLiteStorageFile._WriteMetadata` (creates the metadata table and
writes the four current metadata values). -/
def WriteMetadata (st : State) : State :=
  let rows :=
    [("format_version", toString FORMAT_VERSION),
     ("compression_format", st.compression_format),
     ("serialization_format", st.serialization_format),
     ("storage_type", st.storage_type)]
  { st with metadata := some rows }

/-- `SQLiteStorageFile._ReadAndCheckStorageMetadata`: reads the metadata
table (a failing SELECT is wrapped into an `IOError`), validates it and
adopts the stored values. -/
def ReadAndCheckStorageMetadata (st : State) (check_readable_only : Bool) :
    Except PyExc State := do
  requireCursor st
  match st.metadata with
  | none => throw (.ioError "Unable to query storage file with error")
  | some rows =>
    -- dict comprehension over the rows: the last occurrence of a key wins
    let get := fun k => ((rows.reverse).find? (fun p => p.1 == k)).map (·.2)
    let metadata_values : MetadataValues :=
      { format_version := get "format_version",
        compression_format := get "compression_format",
        serialization_format := get "serialization_format",
        storage_type := get "storage_type" }
    let format_version ← CheckStorageMetadata metadata_values check_readable_only
    let st := { st with format_version := format_version }
    let st := { st with compression_format := (metadata_values.compression_format).getD "" }
    let st := { st with serialization_format := (metadata_values.serialization_format).getD "" }
    let st := { st with storage_type := (metadata_values.storage_type).getD "" }
    pure { st with use_schema := decide (WITH_SCHEMA_FORMAT_VERSION ≤ format_version) }

/-- `SQLiteStorageFile._UpdateStorageMetadataFormatVersion`: bumps the
stored format version to the current one when the file is upgrade
compatible. -/
def UpdateStorageMetadataFormatVersion (st : State) : State :=
  if UPGRADE_COMPATIBLE_FORMAT_VERSION ≤ st.format_version then
    match st.metadata with
    | none => st
    | some rows =>
        { st with metadata := some (alistSet rows "format_version" (toString FORMAT_VERSION)) }
  else st

/-- `SQLiteStorageFile._CreateAttributeContainerTable`: the column
definitions only shape the SQL DDL; the model records the new empty
table. -/
def CreateAttributeContainerTable (st : State) (container_type : String) : State :=
  { st with tables := st.tables ++ [(container_type, [])] }

/-- Container-type keys of `_CONTAINER_SCHEMAS`. -/
def CONTAINER_SCHEMAS_KEYS : List String :=
  ["analysis_warning", "event", "event_data_stream", "event_source",
   "event_tag", "extraction_warning", "preprocessing_warning",
   "recovery_warning", "windows_eventlog_provider"]

/-- Table-creation loop of `Open`: every registry container type (plus the
schema types when the schema is used) that matches the storage type gets a
table if absent.  The source iterates a Python set; the model fixes one
iteration order, which only affects table order, not contents. -/
def createMissingTables (st : State) : State :=
  let container_types :=
    if st.use_schema then
      CONTAINER_TYPES ++ CONTAINER_SCHEMAS_KEYS.filter (fun t => !(CONTAINER_TYPES.contains t))
    else CONTAINER_TYPES
  container_types.foldl
    (fun s t =>
      if s.storage_type == STORAGE_TYPE_SESSION &&
          TASK_STORE_ONLY_CONTAINER_TYPES.contains t then s
      else if s.storage_type == STORAGE_TYPE_TASK &&
          SESSION_STORE_ONLY_CONTAINER_TYPES.contains t then s
      else if !(HasTable s t) then CreateAttributeContainerTable s t
      else s)
    st

/-- `SQLiteStorageFile.GetNumberOfAttributeContainers`: `MAX(_ROWID_)`
equals the number of rows since the engine never deletes rows. -/
def GetNumberOfAttributeContainers (st : State) (container_type : String) :
    Except PyExc Nat := do
  if !(CONTAINER_TYPES.contains container_type) then
    throw (.valueError "Attribute container type is not supported")
  requireCursor st
  if !(HasTable st container_type) then
    pure 0
  else
    pure ((alistGet st.tables container_type).getD []).length

/-- Per-type counter loop at the end of `Open`: sets each referenced
container type's next sequence number to its current row count. -/
def setCountersFromRowCounts : State → List String → Except PyExc State
  | st, [] => .ok st
  | st, t :: rest => do
    let n ← GetNumberOfAttributeContainers st t
    let st := { st with sequence_numbers := setSequenceNumber st.sequence_numbers t n }
    setCountersFromRowCounts st rest

/-- Modelled from the spec (external library behavior): `sqlite3.connect`
with the read-only URI mode raises `sqlite3.OperationalError` when the file
does not exist; a writable connection to a missing file creates an empty
database. -/
def sqliteConnect (fs : Option DBFile) (read_only : Bool) : Except PyExc DBFile :=
  if read_only then
    match fs with
    | none => .error (.sqliteOperationalError "unable to open database file")
    | some db => .ok db
  else
    .ok (fs.getD { metadata := none, tables := [] })

/-- `SQLiteStorageFile.Open`: connects (no existence check before
`sqlite3.connect`), reads or creates the metadata, creates missing tables
when writable, and initializes the sequence counters of the referenced
container types from the row counts.  `fs` is the file at `path` (`none`
when no file exists). -/
def Open (st : State) (fs : Option DBFile) (path : Option String)
    (read_only : Bool) : Except PyExc State := do
  if st.is_open then
    throw (.ioError "Storage file already opened.")
  if path.getD "" == "" then
    throw (.valueError "Missing path.")
  let db ← sqliteConnect fs read_only
  let st := { st with metadata := db.metadata, tables := db.tables }
  let st := { st with cursor := true, is_open := true, read_only := read_only }
  let st ←
    if read_only then
      ReadAndCheckStorageMetadata st true
    else do
      -- PRAGMA synchronous=OFF has no observable effect in the model
      let st ←
        if !(HasTable st "metadata") then
          pure (WriteMetadata st)
        else do
          let st ← ReadAndCheckStorageMetadata st false
          pure (UpdateStorageMetadataFormatVersion st)
      pure (createMissingTables st)
  let _last_session_start ← GetNumberOfAttributeContainers st "session_start"
  let _last_session_completion ← GetNumberOfAttributeContainers st "session_completion"
  setCountersFromRowCounts st REFERENCED_CONTAINER_TYPES

/-- `SQLiteStorageFile.Close`: commits (the returned `DBFile` is the
persisted file) and drops the connection. -/
def Close (st : State) : Except PyExc (State × DBFile) :=
  if !st.is_open then .error (.ioError "Storage file already closed.")
  else
    .ok ({ st with is_open := false, cursor := false },
         { metadata := st.metadata, tables := st.tables })

/-- `SQLiteStorageFile._WriteNewAttributeContainer`: assigns the next
sequence number as a row identifier, rewrites reference fields, builds the
row (schema path) or the serialized `_data` row (legacy path), inserts it,
and caches session-store event sources. -/
def WriteNewAttributeContainer (st : State) (container : Container) :
    Except PyExc (State × Container) := do
  let (next_sequence_number, seqs) :=
    getNextSequenceNumber st.sequence_numbers container.container_type
  let st := { st with sequence_numbers := seqs }
  let identifier := Identifier.sqlTable container.container_type (Int.ofNat next_sequence_number)
  let container := { container with identifier := some identifier }
  let schema := CONTAINER_SCHEMAS container.container_type
  let container ← UpdateAttributeContainerBeforeSerialize container
  let row ←
    if st.use_schema && !schema.isEmpty then
      buildSchemaRow schema container
    else do
      let serialized_data ← SerializeAttributeContainer container
      let serialized_data :=
        if st.compression_format == COMPRESSION_FORMAT_ZLIB then
          zlibCompress serialized_data
        else serialized_data
      if container.container_type == "event" then do
        let ts ← bindParam (getattr container "timestamp")
        pure [("_timestamp", ts), ("_data", some (.text serialized_data))]
      else
        pure [("_data", some (.text serialized_data))]
  requireCursor st
  match alistGet st.tables container.container_type with
  | none => throw (.ioError "Unable to query storage file with error")
  | some rows =>
    let st := { st with tables := alistSet st.tables container.container_type (rows ++ [row]) }
    if st.storage_type == STORAGE_TYPE_SESSION && container.container_type == "event_source" then
      pure (CacheAttributeContainerByIndex st container (Int.ofNat next_sequence_number - 1), container)
    else
      pure (st, container)

/-- `SQLiteStorageFile._WriteExistingAttributeContainer`: requires a row
identifier and a schema, rewrites reference fields and executes
`UPDATE ... WHERE _identifier = ?`.  Every schema column is assigned, so a
matched row is replaced by the freshly built values; an unmatched
identifier updates nothing (the source runs no existence check). -/
def WriteExistingAttributeContainer (st : State) (container : Container) :
    Except PyExc State := do
  match container.identifier with
  | some (.sqlTable _ seq) =>
    let schema := CONTAINER_SCHEMAS container.container_type
    if schema.isEmpty then
      throw (.ioError "Unsupported attribute container type")
    else do
      let container ← UpdateAttributeContainerBeforeSerialize container
      let row ← buildSchemaRow schema container
      requireCursor st
      match alistGet st.tables container.container_type with
      | none => throw (.ioError "Unable to query storage file with error")
      | some rows =>
        let rows :=
          if 1 ≤ seq ∧ seq ≤ Int.ofNat rows.length then
            rows.set (seq - 1).toNat row
          else rows
        pure { st with tables := alistSet st.tables container.container_type rows }
  | _ => throw (.ioError "Unsupported attribute container identifier type")

/-- Row fetched by `SELECT ... WHERE rowid = row_number` (the rowid of the
i-th stored row is i, 1-based; no row matches a non-positive or too large
row number). -/
def fetchRow (rows : List Row) (row_number : Int) : Option Row :=
  if 1 ≤ row_number ∧ row_number ≤ Int.ofNat rows.length then
    rows.get? (row_number - 1).toNat
  else none

/-- `SQLiteStorageFile.GetAttributeContainerByIndex`: consults the cache,
else selects the row with `rowid = index + 1`, reconstructs, binds the
identifier, reverses the reference rewrite and caches the result. -/
def GetAttributeContainerByIndex (st : State) (container_type : String)
    (index : Int) : Except PyExc (Option Container × State) := do
  let (cached, st) := GetCachedAttributeContainer st container_type index
  match cached with
  | some container => pure (some container, st)
  | none =>
    let schema := CONTAINER_SCHEMAS container_type
    let column_names :=
      if st.use_schema && !schema.isEmpty then schema.map (·.1) else ["_data"]
    requireCursor st
    let row_number := index + 1
    match alistGet st.tables container_type with
    | none => throw (.ioError "Unable to query storage file with error")
    | some rows =>
      match fetchRow rows row_number with
      | none => pure (none, st)
      | some row => do
        let container := CreatetAttributeContainerFromRow st container_type column_names row
        let container := { container with identifier := some (.sqlTable container_type row_number) }
        let container ← UpdateAttributeContainerAfterDeserialize container
        pure (some container, CacheAttributeContainerByIndex st container index)

/-- `SQLiteStorageFile.GetAttributeContainerByIdentifier`: requires a row
identifier and delegates to the positional lookup at
`sequence_number - 1`. -/
def GetAttributeContainerByIdentifier (st : State) (container_type : String)
    (identifier : Identifier) : Except PyExc (Option Container × State) :=
  match identifier with
  | .sqlTable _ n => GetAttributeContainerByIndex st container_type (n - 1)
  | _ => .error (.ioError "Unsupported attribute container identifier type")

/-- `SQLiteStorageFile.GetAttributeContainers`. -/
def GetAttributeContainers (st : State) (container_type : String) :
    Except PyExc (List Container) :=
  let schema := CONTAINER_SCHEMAS container_type
  let column_names :=
    if st.use_schema && !schema.isEmpty then schema.map (·.1) else ["_data"]
  GetAttributeContainersWithFilter st container_type column_names none none

/-- `SQLiteStorageFile.GetEventTagByEventIdentifier`: selects the event tags
whose `_event_row_identifier` equals the event's sequence number and
returns the tag only when exactly one row matches. -/
def GetEventTagByEventIdentifier (st : State) (event_identifier : Identifier) :
    Except PyExc (Option Container) := do
  let schema := CONTAINER_SCHEMAS "event_tag"
  if !st.use_schema || schema.isEmpty then
    pure none
  else do
    let column_names := schema.map (·.1)
    let filter_expression :=
      RowFilter.eqInt "_event_row_identifier" event_identifier.sequenceNumber
    let existing_event_tags ←
      GetAttributeContainersWithFilter st "event_tag" column_names
        (some filter_expression) none
    if existing_event_tags.length ≠ 1 then pure none
    else pure existing_event_tags.head?

/-- `SQLiteStorageFile.GetSortedEvents`: filters on the timestamp column
with inclusive bounds (a `None` or 0 endpoint is falsy and adds no bound)
and orders by the same column. -/
def GetSortedEvents (st : State) (time_range : Option TimeRange) :
    Except PyExc (List Container) :=
  let schema := CONTAINER_SCHEMAS "event"
  let filter_column_name :=
    if st.use_schema && !schema.isEmpty then "timestamp" else "_timestamp"
  let column_names :=
    if st.use_schema && !schema.isEmpty then schema.map (·.1) else ["_data"]
  let filter_expression :=
    match time_range with
    | none => none
    | some r =>
      let lower :=
        match r.start_timestamp with
        | some s => if s ≠ 0 then some s else none
        | none => none
      let upper :=
        match r.end_timestamp with
        | some e => if e ≠ 0 then some e else none
        | none => none
      -- both bounds falsy: the assembled filter string is empty, hence falsy
      match lower, upper with
      | none, none => none
      | _, _ => some (RowFilter.tsRange filter_column_name lower upper)
  GetAttributeContainersWithFilter st "event" column_names filter_expression
    (some filter_column_name)

/-- `SQLiteStorageFile.HasAttributeContainers`. -/
def HasAttributeContainers (st : State) (container_type : String) :
    Except PyExc Bool := do
  let count ← GetNumberOfAttributeContainers st container_type
  pure (decide (0 < count))

/-- Modelled from the spec: `interface.BaseStore.AddAttributeContainer`
checks writability and delegates to `_WriteNewAttributeContainer`. -/
def AddAttributeContainer (st : State) (container : Container) :
    Except PyExc (State × Container) := do
  RaiseIfNotWritable st
  WriteNewAttributeContainer st container

/-- Modelled from the spec: `interface.BaseStore.UpdateAttributeContainer`
checks writability and delegates to `_WriteExistingAttributeContainer`. -/
def UpdateAttributeContainer (st : State) (container : Container) :
    Except PyExc State := do
  RaiseIfNotWritable st
  WriteExistingAttributeContainer st container

end SQLiteStorageFile

/-! Multi-session traces of the SQLite store: open the file writable, add a
sequence of containers, close; used to study identifier assignment across
the life of a store file. -/

namespace SQLiteStorageFile

/-- The (container type, sequence number) pair assigned to a container by a
write (0 when no identifier was assigned, which a successful add never
leaves). -/
def assignedPair (c : Container) : String × Int :=
  (c.container_type, (c.identifier.map Identifier.sequenceNumber).getD 0)

/-- Adds a list of containers through `AddAttributeContainer`, collecting
the assigned (type, sequence number) pairs; a failing add aborts. -/
def runAdds : State → List Container → Except PyExc (State × List (String × Int))
  | st, [] => .ok (st, [])
  | st, c :: rest => do
    let (st, stored) ← AddAttributeContainer st c
    let (st, pairs) ← runAdds st rest
    pure (st, assignedPair stored :: pairs)

/-- One session: a fresh session-store object opens the file writable, adds
the containers, and closes, yielding the persisted file. -/
def runSession (fs : Option DBFile) (adds : List Container) :
    Except PyExc (Option DBFile × List (String × Int)) := do
  let st ← Open (new STORAGE_TYPE_SESSION) fs (some "store.plaso") false
  let (st, pairs) ← runAdds st adds
  let (_, db) ← Close st
  pure (some db, pairs)

/-- A sequence of sessions against the same store file, collecting every
assigned (type, sequence number) pair in order. -/
def runSessions : Option DBFile → List (List Container) →
    Except PyExc (Option DBFile × List (String × Int))
  | fs, [] => .ok (fs, [])
  | fs, adds :: rest => do
    let (fs, pairs) ← runSession fs adds
    let (fs, more) ← runSessions fs rest
    pure (fs, pairs ++ more)

/-- Sequence numbers assigned for one container type, in assignment order. -/
def assignedFor (t : String) (pairs : List (String × Int)) : List Int :=
  (pairs.filter (fun p => p.1 == t)).map (·.2)

end SQLiteStorageFile

/-! Reference-semantics model of the fake store, for the copy-on-write
analysis: Python objects live on a heap and the store holds addresses.
`_WriteNewAttributeContainer` allocates a fresh object (`copy.deepcopy`)
while `_WriteExistingAttributeContainer` stores the caller's own object. -/

namespace FakeStoreRef

/-- Heap of Python container objects; an address is an index into the
list. -/
def Heap : Type := List Container

instance : DecidableEq Heap := by unfold Heap; infer_instance

instance : Append Heap := ⟨fun a b => List.append a b⟩

/-- Object at an address (the placeholder is never reached: the store only
holds addresses of allocated objects). -/
def heapGet (h : Heap) (a : Nat) : Container :=
  (List.get? h a).getD { container_type := "", attrs := [], identifier := none }

/-- In-place mutation of the object at an address. -/
def heapSet (h : Heap) (a : Nat) (c : Container) : Heap :=
  List.set h a c

/-- Number of allocated objects. -/
def heapLen (h : Heap) : Nat :=
  List.length h

/-- Fake-store state under reference semantics: per container type an
insertion-ordered mapping from serialized identifier string to the address
of the stored object, and the event-tag side index, also by address. -/
structure State where
  attribute_containers : List (String × List (String × Nat))
  event_tag_per_event_identifier : List (String × Nat)
  is_open : Bool
  sequence_numbers : List (String × Nat)
deriving DecidableEq

/-- A fresh open fake store (reference model). -/
def newOpen : State :=
  { attribute_containers := [], event_tag_per_event_identifier := [],
    is_open := true, sequence_numbers := [] }

/-- `FakeStore._WriteNewAttributeContainer` under reference semantics: the
caller's object (at address `a`) is mutated by `SetIdentifier`, then deep
copied; the store keeps the address of the fresh copy. -/
def WriteNewAttributeContainer (h : Heap) (st : State) (a : Nat) :
    Except PyExc (Heap × State) := do
  let container := heapGet h a
  let containers := (alistGet st.attribute_containers container.container_type).getD []
  let (next_sequence_number, seqs) :=
    getNextSequenceNumber st.sequence_numbers container.container_type
  let identifier := Identifier.fake (Int.ofNat next_sequence_number)
  let container := { container with identifier := some identifier }
  let h := heapSet h a container
  let lookup_key := identifier.CopyToString
  -- copy.deepcopy allocates a fresh object with the same value
  let stored_address := heapLen h
  let h : Heap := List.append h [container]
  let acs := alistSet st.attribute_containers container.container_type
    (alistSet containers lookup_key stored_address)
  let st := { st with sequence_numbers := seqs, attribute_containers := acs }
  if container.container_type == "event_tag" then
    match container.GetEventIdentifier with
    | none => throw (.attributeError "NoneType object has no attribute CopyToString")
    | some event_identifier =>
      let key := event_identifier.CopyToString
      let tags := alistSet st.event_tag_per_event_identifier key stored_address
      pure (h, { st with event_tag_per_event_identifier := tags })
  else
    pure (h, st)

/-- `FakeStore._WriteExistingAttributeContainer` under reference semantics:
the store keeps the address of the caller's own object (no copy). -/
def WriteExistingAttributeContainer (h : Heap) (st : State) (a : Nat) :
    Except PyExc State := do
  let container := heapGet h a
  match container.identifier with
  | some (.fake n) =>
    let lookup_key := (Identifier.fake n).CopyToString
    match alistGet st.attribute_containers container.container_type with
    | none => throw (.ioError "Missing attribute container")
    | some containers =>
      if (alistGet containers lookup_key).isNone then
        throw (.ioError "Missing attribute container")
      else
        let containers := alistSet containers lookup_key a
        let acs := alistSet st.attribute_containers container.container_type containers
        pure { st with attribute_containers := acs }
  | _ => throw (.ioError "Unsupported attribute container identifier type")

/-- `FakeStore.GetAttributeContainerByIdentifier` under reference
semantics. -/
def GetAttributeContainerByIdentifier (h : Heap) (st : State)
    (container_type : String) (identifier : Identifier) : Option Container :=
  let containers := (alistGet st.attribute_containers container_type).getD []
  (alistGet containers identifier.CopyToString).map (heapGet h)

/-- `FakeStore.GetAttributeContainerByIndex` under reference semantics
(restricted to supported container types and in-range indices, where it
dereferences the stored address). -/
def GetAttributeContainerByIndex (h : Heap) (st : State)
    (container_type : String) (index : Nat) : Option Container :=
  let containers := (alistGet st.attribute_containers container_type).getD []
  ((List.get? containers index).map (fun p => heapGet h p.2))

/-- `FakeStore.GetAttributeContainers` under reference semantics. -/
def GetAttributeContainers (h : Heap) (st : State) (container_type : String) :
    List Container :=
  ((alistGet st.attribute_containers container_type).getD []).map
    (fun p => heapGet h p.2)

end FakeStoreRef

/-! Scenario and specification-side definitions used by the theorems. -/

/-- The assigned pairs of a successful trace (empty on failure, which the
theorems exclude). -/
def pairsOf (r : Except PyExc (Option SQLiteStorageFile.DBFile × List (String × Int))) :
    List (String × Int) :=
  match r with
  | .ok (_, pairs) => pairs
  | .error _ => []

/-! Demonstration containers used by concrete scenarios. -/

/-- A well-formed event container referencing event data row 1. -/
def demoEvent (ts : Int) : Container :=
  { container_type := "event",
    attrs := [("_event_data_identifier", .ident (.sqlTable "event_data" 1)),
              ("timestamp", .int ts), ("timestamp_desc", .str "mtime")],
    identifier := none }

/-- A well-formed event tag container referencing event row 1. -/
def demoTag (label : String) : Container :=
  { container_type := "event_tag",
    attrs := [("_event_identifier", .ident (.sqlTable "event" 1)),
              ("labels", .strList [label])],
    identifier := none }

/-- An event tag container for the fake store, referencing the fake event
identifier 1. -/
def demoFakeTag (label : String) : Container :=
  { container_type := "event_tag",
    attrs := [("_event_identifier", .ident (.fake 1)),
              ("labels", .strList [label])],
    identifier := none }

/-- An event source container. -/
def demoEventSource : Container :=
  { container_type := "event_source",
    attrs := [("data_type", .str "os:file")], identifier := none }

/-- Concrete open durable store with a single empty `event` table, used as
witness input. -/
def demoSQLiteState : SQLiteStorageFile.State :=
  { SQLiteStorageFile.new STORAGE_TYPE_SESSION with cursor := true, tables := [("event", [])] }

/-- Number of rows stored for a container type (0 when the table is
absent). -/
def rowsLen (st : SQLiteStorageFile.State) (t : String) : Nat :=
  ((alistGet st.tables t).getD []).length

/-- Number of rows of a container type in a store file (0 when there is no
file or no table). -/
def dbRows (fs : Option SQLiteStorageFile.DBFile) (t : String) : Nat :=
  match fs with
  | none => 0
  | some db => ((alistGet db.tables t).getD []).length

/-- Specification-side predicate of the format gate: the metadata is
supported exactly when the stored format version parses as an integer lying
in [READ_COMPATIBLE, CURRENT] for a read-only open, or in
[APPEND_COMPATIBLE, CURRENT] for a writable open, the compression format is
none or zlib, the serialization format is json, and the storage type is
session or task. -/
def specFormatSupported (m : MetadataValues) (check_readable_only : Bool) : Bool :=
  (match m.format_version.bind pyInt with
   | none => false
   | some n =>
     if check_readable_only then
       decide (SQLiteStorageFile.READ_COMPATIBLE_FORMAT_VERSION ≤ n ∧
         n ≤ SQLiteStorageFile.FORMAT_VERSION)
     else
       decide (SQLiteStorageFile.APPEND_COMPATIBLE_FORMAT_VERSION ≤ n ∧
         n ≤ SQLiteStorageFile.FORMAT_VERSION)) &&
  (match m.compression_format with
   | none => false
   | some cf => COMPRESSION_FORMATS.contains cf) &&
  (m.serialization_format == some SERIALIZER_FORMAT_JSON) &&
  (match m.storage_type with
   | none => false
   | some t => STORAGE_TYPES.contains t)

/-- A concrete two-session trace adding one event source per session, used to
instantiate the identifier-freshness theorem. -/
def c1run : Except PyExc (Option SQLiteStorageFile.DBFile × List (String × Int)) :=
  SQLiteStorageFile.runSessions none [[demoEventSource], [demoEventSource]]

/-- The store file produced by `c1run` (none on failure, which does not
occur). -/
def c1fs : Option SQLiteStorageFile.DBFile :=
  match c1run with
  | .ok (fs, _) => fs
  | .error _ => none

/-- A container with its identifier bound to a table row, as done by the
row-reading getters. -/
def withRowIdentifier (c : Container) (t : String) (n : Int) : Container :=
  { c with identifier := some (.sqlTable t n) }

/-- Fake-store scenario: open, add an event and one event tag referencing
the event's fake identifier 1. -/
def c3fakePre : FakeStore :=
  match (do
    let st ← FakeStore.Open FakeStore.new
    let (st, _) ← FakeStore.AddAttributeContainer st (demoEvent 10)
    let (st, _) ← FakeStore.AddAttributeContainer st (demoFakeTag "a")
    pure st : Except PyExc FakeStore) with
  | .ok st => st
  | .error _ => FakeStore.new

/-- The fake store and stored tag after additionally writing a second event
tag for the same event. -/
def c3fakePost : FakeStore × Container :=
  match FakeStore.WriteNewAttributeContainer c3fakePre (demoFakeTag "b") with
  | .ok r => r
  | .error _ => (c3fakePre, demoFakeTag "b")

/-- Durable-store scenario: open a fresh session store file and add an event
and two event tags both referencing event row 1. -/
def c3run : Except PyExc SQLiteStorageFile.State := do
  let st ← SQLiteStorageFile.Open (SQLiteStorageFile.new STORAGE_TYPE_SESSION)
    none (some "store.plaso") false
  let (st, _) ← SQLiteStorageFile.runAdds st [demoEvent 10, demoTag "a", demoTag "b"]
  pure st

/-- The durable state reached by `c3run`. -/
def c3state : SQLiteStorageFile.State :=
  match c3run with
  | .ok st => st
  | .error _ => SQLiteStorageFile.new STORAGE_TYPE_SESSION

/-- The stored event-tag rows of `c3state`. -/
def c3rows : List Row :=
  (alistGet c3state.tables "event_tag").getD []

/-- Specification-side predicate: an event lies in the inclusive time range
(the absence of a range accepts every event). -/
def specInRange : Option TimeRange → Container → Bool
  | none, _ => true
  | some r, ev =>
    decide (r.start_timestamp.getD 0 ≤ ev.tsVal) &&
    decide (ev.tsVal ≤ r.end_timestamp.getD 0)

/-- Integer value of a row's `timestamp` column (0 when absent or not an
integer; only used on rows whose timestamp is known to be an integer). -/
def rowTs (row : Row) : Int :=
  match rowVal row "timestamp" with
  | some (.int t) => t
  | _ => 0

/-- Specification-side amended range predicate for the durable store: a
given endpoint bounds the timestamp inclusively unless it equals 0, in which
case it imposes no bound (Python truthiness drops it); an absent endpoint
imposes no bound. -/
def amendedInRange : Option TimeRange → Int → Bool
  | none, _ => true
  | some r, t =>
    (match r.start_timestamp with
     | none => true
     | some s => if s = 0 then true else decide (s ≤ t)) &&
    (match r.end_timestamp with
     | none => true
     | some e => if e = 0 then true else decide (t ≤ e))

/-- The timestamps of the events yielded by the durable `GetSortedEvents`
(empty on failure, which the scenarios exclude). -/
def sortedTs (st : SQLiteStorageFile.State) (tr : Option TimeRange) :
    List Int :=
  match SQLiteStorageFile.GetSortedEvents st tr with
  | .ok l => l.map Container.tsVal
  | .error _ => []

/-- Durable-store scenario: events with timestamps 10, 20, 30, 40, 50. -/
def c5run : Except PyExc SQLiteStorageFile.State := do
  let st ← SQLiteStorageFile.Open (SQLiteStorageFile.new STORAGE_TYPE_SESSION)
    none (some "store.plaso") false
  let (st, _) ← SQLiteStorageFile.runAdds st
    [demoEvent 10, demoEvent 20, demoEvent 30, demoEvent 40, demoEvent 50]
  pure st

/-- The durable state reached by `c5run`. -/
def c5state : SQLiteStorageFile.State :=
  match c5run with
  | .ok st => st
  | .error _ => SQLiteStorageFile.new STORAGE_TYPE_SESSION

/-- The stored event rows of `c5state`. -/
def c5rows : List Row :=
  (alistGet c5state.tables "event").getD []

/-- Durable-store scenario: events with timestamps -5 and 5. -/
def c5negRun : Except PyExc SQLiteStorageFile.State := do
  let st ← SQLiteStorageFile.Open (SQLiteStorageFile.new STORAGE_TYPE_SESSION)
    none (some "store.plaso") false
  let (st, _) ← SQLiteStorageFile.runAdds st [demoEvent (-5), demoEvent 5]
  pure st

/-- The durable state reached by `c5negRun`. -/
def c5negState : SQLiteStorageFile.State :=
  match c5negRun with
  | .ok st => st
  | .error _ => SQLiteStorageFile.new STORAGE_TYPE_SESSION

/-- The stored event rows of `c5negState`. -/
def c5negRows : List Row :=
  (alistGet c5negState.tables "event").getD []

/-- Whether a row's column holds an integer (decidable well-formedness of
stored event rows). -/
def isIntCol (row : Row) (col : String) : Bool :=
  match rowVal row col with
  | some (.int _) => true
  | _ => false

/-- Reference-model heap holding the caller's event source object at
address 0. -/
def c9base : FakeStoreRef.Heap := [demoEventSource]

/-- Heap and store after the caller's object is added (the store keeps a
deep copy at a fresh address). -/
def c9w1 : FakeStoreRef.Heap × FakeStoreRef.State :=
  match FakeStoreRef.WriteNewAttributeContainer c9base FakeStoreRef.newOpen 0
      with
  | .ok r => r
  | .error _ => (c9base, FakeStoreRef.newOpen)

/-- Store after the caller's object is written again through the update
path, which keeps the caller's own address. -/
def c9st2 : FakeStoreRef.State :=
  match FakeStoreRef.WriteExistingAttributeContainer c9w1.1 c9w1.2 0 with
  | .ok st => st
  | .error _ => c9w1.2

/-- Heap after the caller mutates their own object (post-update). -/
def c9mutHeap : FakeStoreRef.Heap :=
  FakeStoreRef.heapSet c9w1.1 0
    (setattr (FakeStoreRef.heapGet c9w1.1 0) "data_type" (.str "mutated"))

/-- A fake store that was opened, received one event, and was closed. -/
def c6fake : FakeStore :=
  match (do
    let st ← FakeStore.Open FakeStore.new
    let (st, _) ← FakeStore.AddAttributeContainer st (demoEvent 10)
    FakeStore.Close st : Except PyExc FakeStore) with
  | .ok st => st
  | .error _ => FakeStore.new

/-- A durable store object that was opened writable, received one event
source, and was closed. -/
def c6closedState : SQLiteStorageFile.State :=
  match (do
    let st ← SQLiteStorageFile.Open
      (SQLiteStorageFile.new STORAGE_TYPE_SESSION) none (some "store.plaso")
      false
    let (st, _) ← SQLiteStorageFile.AddAttributeContainer st demoEventSource
    let (st, _) ← SQLiteStorageFile.Close st
    pure st : Except PyExc SQLiteStorageFile.State) with
  | .ok st => st
  | .error _ => SQLiteStorageFile.new STORAGE_TYPE_SESSION

/-- A durable store object opened read-only on the file written by
`c1run`. -/
def c6roState : SQLiteStorageFile.State :=
  match SQLiteStorageFile.Open (SQLiteStorageFile.new STORAGE_TYPE_SESSION)
      c1fs (some "store.plaso") true with
  | .ok st => st
  | .error _ => SQLiteStorageFile.new STORAGE_TYPE_SESSION

/-- Fake store holding three events with timestamps 10, 5 and 10, in that
insertion order. -/
def c4fake : FakeStore :=
  match (do
    let st ← FakeStore.Open FakeStore.new
    let (st, _) ← FakeStore.AddAttributeContainer st (demoEvent 10)
    let (st, _) ← FakeStore.AddAttributeContainer st (demoEvent 5)
    let (st, _) ← FakeStore.AddAttributeContainer st (demoEvent 10)
    pure st : Except PyExc FakeStore) with
  | .ok st => st
  | .error _ => FakeStore.new

end Plaso

deriving instance DecidableEq for Except

namespace Plaso

/-! Helper lemmas about the association-list primitives. -/

theorem alistGet_nil {β : Type} (k : String) : alistGet ([] : List (String × β)) k = none :=
  rfl

theorem alistGet_cons {β : Type} (p : String × β) (rest : List (String × β)) (k : String) :
    alistGet (p :: rest) k = if p.1 = k then some p.2 else alistGet rest k := by
  by_cases h : p.1 = k
  · simp [alistGet, List.find?_cons_of_pos, h]
  · simp [alistGet, List.find?_cons_of_neg, h]

theorem alistGet_alistSet_self {β : Type} (l : List (String × β)) (k : String) (v : β) :
    alistGet (alistSet l k v) k = some v := by
  induction l with
  | nil => simp [alistGet, alistSet]
  | cons p rest ih =>
    by_cases h : p.1 = k
    · simp [alistSet, h, alistGet_cons]
    · simp [alistSet, h, alistGet_cons, ih]

theorem alistGet_alistSet_ne {β : Type} (l : List (String × β)) (k k' : String) (v : β)
    (h : k' ≠ k) : alistGet (alistSet l k v) k' = alistGet l k' := by
  induction l with
  | nil => simp [alistSet, alistGet_cons, alistGet_nil, Ne.symm h]
  | cons p rest ih =>
    by_cases hp : p.1 = k
    · subst hp
      simp [alistSet, alistGet_cons, Ne.symm h]
    · simp [alistSet, hp, alistGet_cons, ih]

theorem alistSet_of_get_none {β : Type} (l : List (String × β)) (k : String) (v : β)
    (h : alistGet l k = none) : alistSet l k v = l ++ [(k, v)] := by
  induction l with
  | nil => simp [alistSet]
  | cons p rest ih =>
    rw [alistGet_cons] at h
    by_cases hp : p.1 = k
    · simp [hp] at h
    · simp only [hp, if_false] at h
      simp [alistSet, hp, ih h]

theorem seqValue_set_self (seqs : List (String × Nat)) (t : String) (n : Nat) :
    seqValue (setSequenceNumber seqs t n) t = n := by
  simp [seqValue, setSequenceNumber, alistGet_alistSet_self]

theorem seqValue_set_ne (seqs : List (String × Nat)) (t t' : String) (n : Nat)
    (h : t' ≠ t) : seqValue (setSequenceNumber seqs t n) t' = seqValue seqs t' := by
  simp [seqValue, setSequenceNumber, alistGet_alistSet_ne _ _ _ _ h]

/-- Generic elimination for `Except` binds. -/
theorem except_bind_ok {ε α β : Type} {x : Except ε α} {g : α → Except ε β} {v : β}
    (h : (x >>= g) = .ok v) : ∃ a, x = .ok a ∧ g a = .ok v := by
  cases x with
  | error e => simp [Bind.bind, Except.bind] at h
  | ok a => exact ⟨a, rfl, by simpa [Bind.bind, Except.bind] using h⟩

/-- Pointwise-successful `mapM` over `Except` succeeds and maps values. -/
theorem mapM_ok_of_forall {ε α β γ : Type} (f : α → Except ε β) (g : β → γ) (hfun : α → γ)
    (l : List α) (h : ∀ a ∈ l, ∃ b, f a = .ok b ∧ g b = hfun a) :
    ∃ l', l.mapM f = .ok l' ∧ l'.map g = l.map hfun := by
  induction l with
  | nil => exact ⟨[], rfl, rfl⟩
  | cons a rest ih =>
    obtain ⟨b, hb, hgb⟩ := h a (by simp)
    obtain ⟨l', hl', hmap⟩ := ih (fun a ha => h a (by simp [ha]))
    refine ⟨b :: l', ?_, by simp [hgb, hmap]⟩
    rw [List.mapM_cons, hb, hl']
    rfl

/-- Filtering an enumeration on the element and projecting back. -/
theorem enumFrom_filter_map_snd {α : Type} (p : α → Bool) :
    ∀ (n : Nat) (l : List α),
      ((List.enumFrom n l).filter (fun q => p q.2)).map (·.2) = l.filter p
  | _, [] => rfl
  | n, a :: rest => by
    by_cases h : p a
    · simp [List.enumFrom, List.filter, h, enumFrom_filter_map_snd p (n + 1) rest]
    · simp [List.enumFrom, List.filter, h, enumFrom_filter_map_snd p (n + 1) rest]



/-! C10 -/

/-- C10: for both stores getting a supported container type at a negative
index returns `None`: it neither raises nor returns a container.  The
in-memory store checks the bounds explicitly; the durable store misses the
cache (the cache never holds negative indices) and selects row number
`index + 1 ≤ 0`, which matches no row. -/
theorem getAttributeContainerByIndex_negative (fst : FakeStore)
    (sst : SQLiteStorageFile.State) (container_type : String) (index : Int)
    (htype : container_type ∈ CONTAINER_TYPES) (hneg : index < 0)
    (hcache : alistGetP sst.attribute_container_cache (container_type, index) = none)
    (hcursor : sst.cursor = true)
    (htable : (alistGet sst.tables container_type).isSome) :
    FakeStore.GetAttributeContainerByIndex fst container_type index = .ok none ∧
    SQLiteStorageFile.GetAttributeContainerByIndex sst container_type index =
      .ok (none, sst) := by
  constructor
  · simp [FakeStore.GetAttributeContainerByIndex, htype, hneg, pure, Except.pure,
      Bind.bind, Except.bind]
  · obtain ⟨rows, hrows⟩ := Option.isSome_iff_exists.mp htable
    have hfetch : SQLiteStorageFile.fetchRow rows (index + 1) = none := by
      unfold SQLiteStorageFile.fetchRow
      rw [if_neg]
      omega
    simp [SQLiteStorageFile.GetAttributeContainerByIndex,
      SQLiteStorageFile.GetCachedAttributeContainer, hcache,
      SQLiteStorageFile.requireCursor, hcursor, hrows, hfetch, pure, Except.pure,
      Bind.bind, Except.bind]


/-- Closed witness for the negative-index theorem at a concrete store. -/
theorem getAttributeContainerByIndex_negative_witness :
    FakeStore.GetAttributeContainerByIndex FakeStore.new "event" (-1) = .ok none ∧
    SQLiteStorageFile.GetAttributeContainerByIndex demoSQLiteState "event" (-1) =
      .ok (none, demoSQLiteState) :=
  getAttributeContainerByIndex_negative FakeStore.new demoSQLiteState "event" (-1)
    (by decide) (by decide) (by decide) (by decide) (by decide)

/-! C8 -/

/-- C8: opening the durable store read-only on a path with no file does not
fail with the contract `IOError` (`NotFound`); the backend
`sqlite3.OperationalError` raised by `sqlite3.connect` escapes `Open`
unwrapped (the source has no existence check and no try/except around the
connect call), contradicting the docstring of `Open`, which promises
`IOError` when the database cannot be connected. -/
theorem open_missing_file_read_only_leaks_backend_error :
    SQLiteStorageFile.Open (SQLiteStorageFile.new STORAGE_TYPE_SESSION) none
        (some "/nonexistent/store.plaso") true =
      .error (.sqliteOperationalError "unable to open database file") ∧
    (∀ message, SQLiteStorageFile.Open (SQLiteStorageFile.new STORAGE_TYPE_SESSION) none
        (some "/nonexistent/store.plaso") true ≠ .error (.ioError message)) := by
  refine ⟨by decide, ?_⟩
  intro message h
  rw [show SQLiteStorageFile.Open (SQLiteStorageFile.new STORAGE_TYPE_SESSION) none
      (some "/nonexistent/store.plaso") true =
      .error (.sqliteOperationalError "unable to open database file") from by decide] at h
  simp at h

/-! C7 -/

/-- C7: `_CheckStorageMetadata` succeeds exactly when the stored metadata
satisfies the supported-format predicate (format version an integer in
[READ_COMPATIBLE, CURRENT] for read-only, [APPEND_COMPATIBLE, CURRENT] for
writable; compression in none/zlib; serialization json; storage type
session/task), and every failure raises `IOError` (the code signals all
metadata failures, the spec's UnsupportedFormat kind included, through that
one exception class). -/
theorem checkStorageMetadata_ok_iff (m : MetadataValues) (check_readable_only : Bool) :
    (SQLiteStorageFile.CheckStorageMetadata m check_readable_only).isOk =
      specFormatSupported m check_readable_only ∧
    (∀ e, SQLiteStorageFile.CheckStorageMetadata m check_readable_only = .error e →
      ∃ message, e = .ioError message) := by
  rcases m with ⟨fv, cf, sf, stt⟩
  constructor
  · cases fv with
    | none =>
      simp [SQLiteStorageFile.CheckStorageMetadata, specFormatSupported,
        throw, throwThe, MonadExceptOf.throw, Except.isOk, Except.toBool,
        Bind.bind, Except.bind, pure, Except.pure]
    | some s =>
      by_cases hs : s = ""
      · subst hs
        simp [SQLiteStorageFile.CheckStorageMetadata, specFormatSupported,
          throw, throwThe, MonadExceptOf.throw, Except.isOk, Except.toBool,
          Bind.bind, Except.bind, pure, Except.pure,
          show pyInt "" = none by rfl]
      · cases hp : pyInt s with
        | none =>
          simp [SQLiteStorageFile.CheckStorageMetadata, specFormatSupported, hs, hp,
            throw, throwThe, MonadExceptOf.throw, Except.isOk, Except.toBool,
            Bind.bind, Except.bind, pure, Except.pure]
        | some n =>
          simp only [SQLiteStorageFile.CheckStorageMetadata, specFormatSupported, hs, hp,
            throw, throwThe, MonadExceptOf.throw, Bind.bind, Except.bind,
            Option.getD_some, Option.some_bind, pure, Except.pure]
          rcases cf with _ | c <;> rcases stt with _ | t <;>
            split_ifs <;>
            simp_all [Except.isOk, Except.toBool, Bind.bind, Except.bind,
              pure, Except.pure, SQLiteStorageFile.FORMAT_VERSION,
              SQLiteStorageFile.APPEND_COMPATIBLE_FORMAT_VERSION,
              SQLiteStorageFile.READ_COMPATIBLE_FORMAT_VERSION] <;>
            try omega
  · intro e he
    unfold SQLiteStorageFile.CheckStorageMetadata at he
    simp only [throw, throwThe, MonadExceptOf.throw, Bind.bind, Except.bind,
      pure, Except.pure] at he
    repeat' split at he
    all_goals first
      | exact ⟨_, (Except.error.inj he).symm⟩
      | simp at he


/-! Elimination lemmas for the SQLite write path. -/

theorem getNextSequenceNumber_eq (seqs : List (String × Nat)) (t : String) :
    getNextSequenceNumber seqs t =
      (seqValue seqs t + 1, setSequenceNumber seqs t (seqValue seqs t + 1)) :=
  rfl

theorem applyIdentifierMappings_preserves :
    ∀ (ms : List (String × String × String)) (c c' : Container),
      SQLiteStorageFile.applyIdentifierMappings c ms = .ok c' →
      c'.container_type = c.container_type ∧ c'.identifier = c.identifier := by
  intro ms
  induction ms with
  | nil =>
    intro c c' h
    simp only [SQLiteStorageFile.applyIdentifierMappings] at h
    cases h
    exact ⟨rfl, rfl⟩
  | cons m rest ih =>
    intro c c' h
    rcases m with ⟨rt, an, sn⟩
    simp only [SQLiteStorageFile.applyIdentifierMappings] at h
    split at h <;> try exact absurd h (by simp)
    rename_i n heq
    obtain ⟨h1, h2⟩ := ih _ _ h
    exact ⟨h1, h2⟩

theorem updateBeforeSerialize_preserves {c c' : Container}
    (h : SQLiteStorageFile.UpdateAttributeContainerBeforeSerialize c = .ok c') :
    c'.container_type = c.container_type ∧ c'.identifier = c.identifier := by
  simp only [SQLiteStorageFile.UpdateAttributeContainerBeforeSerialize] at h
  split_ifs at h
  · exact applyIdentifierMappings_preserves _ _ _ h
  · split at h
    · cases h
      exact ⟨rfl, rfl⟩
    · cases h
      exact ⟨rfl, rfl⟩
    · exact absurd h (by simp)
  · cases h
    exact ⟨rfl, rfl⟩

theorem cacheByIndex_tables (s : SQLiteStorageFile.State) (ac : Container) (i : Int) :
    (SQLiteStorageFile.CacheAttributeContainerByIndex s ac i).tables = s.tables := by
  unfold SQLiteStorageFile.CacheAttributeContainerByIndex
  split_ifs <;> rfl

theorem cacheByIndex_sequence_numbers (s : SQLiteStorageFile.State) (ac : Container) (i : Int) :
    (SQLiteStorageFile.CacheAttributeContainerByIndex s ac i).sequence_numbers =
      s.sequence_numbers := by
  unfold SQLiteStorageFile.CacheAttributeContainerByIndex
  split_ifs <;> rfl

theorem cacheByIndex_is_open (s : SQLiteStorageFile.State) (ac : Container) (i : Int) :
    (SQLiteStorageFile.CacheAttributeContainerByIndex s ac i).is_open = s.is_open := by
  unfold SQLiteStorageFile.CacheAttributeContainerByIndex
  split_ifs <;> rfl

theorem cacheByIndex_read_only (s : SQLiteStorageFile.State) (ac : Container) (i : Int) :
    (SQLiteStorageFile.CacheAttributeContainerByIndex s ac i).read_only = s.read_only := by
  unfold SQLiteStorageFile.CacheAttributeContainerByIndex
  split_ifs <;> rfl

theorem cacheByIndex_cursor (s : SQLiteStorageFile.State) (ac : Container) (i : Int) :
    (SQLiteStorageFile.CacheAttributeContainerByIndex s ac i).cursor = s.cursor := by
  unfold SQLiteStorageFile.CacheAttributeContainerByIndex
  split_ifs <;> rfl

theorem cacheByIndex_use_schema (s : SQLiteStorageFile.State) (ac : Container) (i : Int) :
    (SQLiteStorageFile.CacheAttributeContainerByIndex s ac i).use_schema = s.use_schema := by
  unfold SQLiteStorageFile.CacheAttributeContainerByIndex
  split_ifs <;> rfl

theorem cacheByIndex_storage_type (s : SQLiteStorageFile.State) (ac : Container) (i : Int) :
    (SQLiteStorageFile.CacheAttributeContainerByIndex s ac i).storage_type = s.storage_type := by
  unfold SQLiteStorageFile.CacheAttributeContainerByIndex
  split_ifs <;> rfl

theorem cacheByIndex_metadata (s : SQLiteStorageFile.State) (ac : Container) (i : Int) :
    (SQLiteStorageFile.CacheAttributeContainerByIndex s ac i).metadata = s.metadata := by
  unfold SQLiteStorageFile.CacheAttributeContainerByIndex
  split_ifs <;> rfl

theorem cacheByIndex_compression_format (s : SQLiteStorageFile.State) (ac : Container) (i : Int) :
    (SQLiteStorageFile.CacheAttributeContainerByIndex s ac i).compression_format =
      s.compression_format := by
  unfold SQLiteStorageFile.CacheAttributeContainerByIndex
  split_ifs <;> rfl

theorem cacheByIndex_format_version (s : SQLiteStorageFile.State) (ac : Container) (i : Int) :
    (SQLiteStorageFile.CacheAttributeContainerByIndex s ac i).format_version =
      s.format_version := by
  unfold SQLiteStorageFile.CacheAttributeContainerByIndex
  split_ifs <;> rfl

theorem addAttributeContainer_ok_spec {st : SQLiteStorageFile.State} {c : Container}
    {st' : SQLiteStorageFile.State} {c' : Container}
    (h : SQLiteStorageFile.AddAttributeContainer st c = .ok (st', c')) :
    st.is_open = true ∧ st.read_only = false ∧ st.cursor = true ∧
    (∃ rows row,
      alistGet st.tables c.container_type = some rows ∧
      st'.tables = alistSet st.tables c.container_type (rows ++ [row])) ∧
    st'.sequence_numbers = setSequenceNumber st.sequence_numbers c.container_type
      (seqValue st.sequence_numbers c.container_type + 1) ∧
    c'.container_type = c.container_type ∧
    c'.identifier = some (.sqlTable c.container_type
      (Int.ofNat (seqValue st.sequence_numbers c.container_type + 1))) ∧
    st'.is_open = true ∧ st'.read_only = false ∧ st'.cursor = true ∧
    st'.use_schema = st.use_schema ∧ st'.storage_type = st.storage_type ∧
    st'.metadata = st.metadata ∧ st'.compression_format = st.compression_format ∧
    st'.format_version = st.format_version := by
  unfold SQLiteStorageFile.AddAttributeContainer at h
  obtain ⟨u, hw, h⟩ := except_bind_ok h
  have hopen : st.is_open = true ∧ st.read_only = false := by
    unfold SQLiteStorageFile.RaiseIfNotWritable at hw
    split_ifs at hw with h1 h2
    · simp at h1
      exact ⟨h1, by simpa using h2⟩
  refine ⟨hopen.1, hopen.2, ?_⟩
  unfold SQLiteStorageFile.WriteNewAttributeContainer at h
  simp only [getNextSequenceNumber_eq, Bind.bind, Except.bind, pure, Except.pure,
    throw, throwThe, MonadExceptOf.throw] at h
  cases hb : SQLiteStorageFile.UpdateAttributeContainerBeforeSerialize
      { c with identifier := some (.sqlTable c.container_type
        (Int.ofNat (seqValue st.sequence_numbers c.container_type + 1))) } with
  | error e =>
    rw [hb] at h
    simp at h
  | ok c2 =>
    rw [hb] at h
    obtain ⟨hct, hid⟩ := updateBeforeSerialize_preserves hb
    dsimp only at h hct hid
    by_cases hus : (st.use_schema &&
        !(SQLiteStorageFile.CONTAINER_SCHEMAS c.container_type).isEmpty) = true
    · rw [if_pos hus] at h
      cases hbr : SQLiteStorageFile.buildSchemaRow
          (SQLiteStorageFile.CONTAINER_SCHEMAS c.container_type) c2 with
      | error e =>
        rw [hbr] at h
        simp at h
      | ok row =>
        rw [hbr] at h
        dsimp only at h
        have hcur : st.cursor = true := by
          by_contra hf
          simp only [Bool.not_eq_true] at hf
          simp [SQLiteStorageFile.requireCursor, hf] at h
        simp only [SQLiteStorageFile.requireCursor, hcur, if_true] at h
        cases halist : alistGet st.tables c2.container_type with
        | none =>
          rw [halist] at h
          simp at h
        | some rows =>
          rw [halist] at h
          dsimp only at h
          rw [hct] at halist
          split_ifs at h with hcache
          · injection h with hpair
            injection hpair with h1 h2
            subst h1
            subst h2
            refine ⟨hcur, ⟨rows, row, halist, ?_⟩, ?_, hct, hid, ?_, ?_, ?_, ?_, ?_, ?_, ?_, ?_⟩ <;>
              simp [cacheByIndex_tables, cacheByIndex_sequence_numbers, cacheByIndex_is_open,
                cacheByIndex_read_only, cacheByIndex_cursor, cacheByIndex_use_schema,
                cacheByIndex_storage_type, cacheByIndex_metadata,
                cacheByIndex_compression_format, cacheByIndex_format_version,
                hct, hcur, hopen.1, hopen.2]
          · injection h with hpair
            injection hpair with h1 h2
            subst h1
            subst h2
            refine ⟨hcur, ⟨rows, row, halist, ?_⟩, ?_, hct, hid, ?_, ?_, ?_, ?_, ?_, ?_, ?_, ?_⟩ <;>
              simp [hct, hcur, hopen.1, hopen.2]
    · rw [if_neg hus] at h
      cases hser : SQLiteStorageFile.SerializeAttributeContainer c2 with
      | error e =>
        rw [hser] at h
        simp at h
      | ok serialized_data =>
        rw [hser] at h
        dsimp only at h
        by_cases hev : (c2.container_type == "event") = true
        · rw [if_pos hev] at h
          cases hbp : SQLiteStorageFile.bindParam (getattr c2 "timestamp") with
          | error e =>
            rw [hbp] at h
            simp at h
          | ok ts =>
            rw [hbp] at h
            dsimp only at h
            generalize hrowdef : [("_timestamp", ts), ("_data", some (SQLValue.text
              (if st.compression_format == COMPRESSION_FORMAT_ZLIB then
                zlibCompress serialized_data else serialized_data)))] = row at h
            have hcur : st.cursor = true := by
              by_contra hf
              simp only [Bool.not_eq_true] at hf
              simp [SQLiteStorageFile.requireCursor, hf] at h
            simp only [SQLiteStorageFile.requireCursor, hcur, if_true] at h
            cases halist : alistGet st.tables c2.container_type with
            | none =>
              rw [halist] at h
              simp at h
            | some rows =>
              rw [halist] at h
              dsimp only at h
              rw [hct] at halist
              split_ifs at h with hcache
              · injection h with hpair
                injection hpair with h1 h2
                subst h1
                subst h2
                refine ⟨hcur, ⟨rows, row, halist, ?_⟩, ?_, hct, hid, ?_, ?_, ?_, ?_, ?_, ?_, ?_, ?_⟩ <;>
                  simp [cacheByIndex_tables, cacheByIndex_sequence_numbers, cacheByIndex_is_open,
                    cacheByIndex_read_only, cacheByIndex_cursor, cacheByIndex_use_schema,
                    cacheByIndex_storage_type, cacheByIndex_metadata,
                    cacheByIndex_compression_format, cacheByIndex_format_version,
                    hct, hcur, hopen.1, hopen.2]
              · injection h with hpair
                injection hpair with h1 h2
                subst h1
                subst h2
                refine ⟨hcur, ⟨rows, row, halist, ?_⟩, ?_, hct, hid, ?_, ?_, ?_, ?_, ?_, ?_, ?_, ?_⟩ <;>
                  simp [hct, hcur, hopen.1, hopen.2]
        · rw [if_neg hev] at h
          generalize hrowdef : [("_data", some (SQLValue.text
            (if st.compression_format == COMPRESSION_FORMAT_ZLIB then
              zlibCompress serialized_data else serialized_data)))] = row at h
          have hcur : st.cursor = true := by
            by_contra hf
            simp only [Bool.not_eq_true] at hf
            simp [SQLiteStorageFile.requireCursor, hf] at h
          simp only [SQLiteStorageFile.requireCursor, hcur, if_true] at h
          cases halist : alistGet st.tables c2.container_type with
          | none =>
            rw [halist] at h
            simp at h
          | some rows =>
            rw [halist] at h
            dsimp only at h
            rw [hct] at halist
            split_ifs at h with hcache
            · injection h with hpair
              injection hpair with h1 h2
              subst h1
              subst h2
              refine ⟨hcur, ⟨rows, row, halist, ?_⟩, ?_, hct, hid, ?_, ?_, ?_, ?_, ?_, ?_, ?_, ?_⟩ <;>
                simp [cacheByIndex_tables, cacheByIndex_sequence_numbers, cacheByIndex_is_open,
                  cacheByIndex_read_only, cacheByIndex_cursor, cacheByIndex_use_schema,
                  cacheByIndex_storage_type, cacheByIndex_metadata,
                  cacheByIndex_compression_format, cacheByIndex_format_version,
                  hct, hcur, hopen.1, hopen.2]
            · injection h with hpair
              injection hpair with h1 h2
              subst h1
              subst h2
              refine ⟨hcur, ⟨rows, row, halist, ?_⟩, ?_, hct, hid, ?_, ?_, ?_, ?_, ?_, ?_, ?_, ?_⟩ <;>
                simp [hct, hcur, hopen.1, hopen.2]

/-! Elimination lemmas for `Open` and the session traces. -/

theorem getNumberOf_ok {st : SQLiteStorageFile.State} {t : String} {n : Nat}
    (h : SQLiteStorageFile.GetNumberOfAttributeContainers st t = .ok n)
    (hm : t ≠ "metadata") : n = rowsLen st t ∧ st.cursor = true := by
  unfold SQLiteStorageFile.GetNumberOfAttributeContainers at h
  simp only [Bind.bind, Except.bind, pure, Except.pure, throw, throwThe,
    MonadExceptOf.throw] at h
  by_cases h1 : (!(CONTAINER_TYPES.contains t)) = true
  · rw [if_pos h1] at h
    simp at h
  · rw [if_neg h1] at h
    have hcur : st.cursor = true := by
      by_contra hf
      simp only [Bool.not_eq_true] at hf
      simp [SQLiteStorageFile.requireCursor, hf] at h
    simp only [SQLiteStorageFile.requireCursor, hcur, if_true] at h
    refine ⟨?_, hcur⟩
    have hht : SQLiteStorageFile.HasTable st t = (alistGet st.tables t).isSome := by
      unfold SQLiteStorageFile.HasTable
      rw [if_neg (by simpa using hm)]
    by_cases h2 : (!(SQLiteStorageFile.HasTable st t)) = true
    · rw [if_pos h2] at h
      have hnone : alistGet st.tables t = none := by
        rw [hht] at h2
        simpa [Option.isSome_iff_exists] using h2
      have hn : n = 0 := by simpa using h.symm
      simp [hn, rowsLen, hnone]
    · rw [if_neg h2] at h
      simp only [rowsLen]
      simpa using h.symm


theorem alistGet_append_single {β : Type} (l : List (String × β)) (k k' : String) (v : β) :
    alistGet (l ++ [(k, v)]) k' =
      ((alistGet l k').or (if k = k' then some v else none)) := by
  unfold alistGet
  rw [List.find?_append]
  by_cases h : k = k'
  · subst h
    cases hf : List.find? (fun p => p.1 == k) l <;>
      simp [hf, List.find?, Option.or]
  · have hkk : (k == k') = false := by simpa using h
    cases hf : List.find? (fun p => p.1 == k') l <;>
      simp [hf, List.find?, hkk, h, Option.or]

theorem rowsLen_createTable (s : SQLiteStorageFile.State) (t0 t : String) :
    rowsLen (SQLiteStorageFile.CreateAttributeContainerTable s t0) t = rowsLen s t := by
  unfold rowsLen SQLiteStorageFile.CreateAttributeContainerTable
  dsimp only
  rw [alistGet_append_single]
  cases halist : alistGet s.tables t <;> by_cases ht : t0 = t <;>
    simp [halist, ht, Option.or]

theorem readAndCheck_preserves {st : SQLiteStorageFile.State} {ro : Bool}
    {st' : SQLiteStorageFile.State}
    (h : SQLiteStorageFile.ReadAndCheckStorageMetadata st ro = .ok st') :
    st'.tables = st.tables ∧ st'.sequence_numbers = st.sequence_numbers ∧
    st'.is_open = st.is_open ∧ st'.cursor = st.cursor ∧
    st'.read_only = st.read_only := by
  unfold SQLiteStorageFile.ReadAndCheckStorageMetadata at h
  simp only [Bind.bind, Except.bind, pure, Except.pure, throw, throwThe,
    MonadExceptOf.throw] at h
  by_cases hcur : st.cursor = true
  · simp only [SQLiteStorageFile.requireCursor, hcur, if_true] at h
    cases hmet : st.metadata with
    | none =>
      rw [hmet] at h
      simp at h
    | some rows =>
      rw [hmet] at h
      dsimp only at h
      split at h
      · exact absurd h (by simp)
      · injection h with h1
        subst h1
        exact ⟨rfl, rfl, rfl, hcur.symm, rfl⟩
  · simp [SQLiteStorageFile.requireCursor, hcur] at h

theorem writeMetadata_preserves (st : SQLiteStorageFile.State) :
    (SQLiteStorageFile.WriteMetadata st).tables = st.tables ∧
    (SQLiteStorageFile.WriteMetadata st).sequence_numbers = st.sequence_numbers ∧
    (SQLiteStorageFile.WriteMetadata st).is_open = st.is_open ∧
    (SQLiteStorageFile.WriteMetadata st).cursor = st.cursor ∧
    (SQLiteStorageFile.WriteMetadata st).read_only = st.read_only :=
  ⟨rfl, rfl, rfl, rfl, rfl⟩

theorem updateVersion_preserves (st : SQLiteStorageFile.State) :
    (SQLiteStorageFile.UpdateStorageMetadataFormatVersion st).tables = st.tables ∧
    (SQLiteStorageFile.UpdateStorageMetadataFormatVersion st).sequence_numbers =
      st.sequence_numbers ∧
    (SQLiteStorageFile.UpdateStorageMetadataFormatVersion st).is_open = st.is_open ∧
    (SQLiteStorageFile.UpdateStorageMetadataFormatVersion st).cursor = st.cursor ∧
    (SQLiteStorageFile.UpdateStorageMetadataFormatVersion st).read_only = st.read_only := by
  unfold SQLiteStorageFile.UpdateStorageMetadataFormatVersion
  split_ifs
  · split <;> exact ⟨rfl, rfl, rfl, rfl, rfl⟩
  · exact ⟨rfl, rfl, rfl, rfl, rfl⟩

theorem createFold_preserves (ts : List String) :
    ∀ (s : SQLiteStorageFile.State),
      (∀ t, rowsLen (ts.foldl (fun s t =>
          if s.storage_type == STORAGE_TYPE_SESSION &&
              TASK_STORE_ONLY_CONTAINER_TYPES.contains t then s
          else if s.storage_type == STORAGE_TYPE_TASK &&
              SESSION_STORE_ONLY_CONTAINER_TYPES.contains t then s
          else if !(SQLiteStorageFile.HasTable s t) then
            SQLiteStorageFile.CreateAttributeContainerTable s t
          else s) s) t = rowsLen s t) ∧
      (ts.foldl (fun s t =>
          if s.storage_type == STORAGE_TYPE_SESSION &&
              TASK_STORE_ONLY_CONTAINER_TYPES.contains t then s
          else if s.storage_type == STORAGE_TYPE_TASK &&
              SESSION_STORE_ONLY_CONTAINER_TYPES.contains t then s
          else if !(SQLiteStorageFile.HasTable s t) then
            SQLiteStorageFile.CreateAttributeContainerTable s t
          else s) s).sequence_numbers = s.sequence_numbers ∧
      (ts.foldl (fun s t =>
          if s.storage_type == STORAGE_TYPE_SESSION &&
              TASK_STORE_ONLY_CONTAINER_TYPES.contains t then s
          else if s.storage_type == STORAGE_TYPE_TASK &&
              SESSION_STORE_ONLY_CONTAINER_TYPES.contains t then s
          else if !(SQLiteStorageFile.HasTable s t) then
            SQLiteStorageFile.CreateAttributeContainerTable s t
          else s) s).is_open = s.is_open ∧
      (ts.foldl (fun s t =>
          if s.storage_type == STORAGE_TYPE_SESSION &&
              TASK_STORE_ONLY_CONTAINER_TYPES.contains t then s
          else if s.storage_type == STORAGE_TYPE_TASK &&
              SESSION_STORE_ONLY_CONTAINER_TYPES.contains t then s
          else if !(SQLiteStorageFile.HasTable s t) then
            SQLiteStorageFile.CreateAttributeContainerTable s t
          else s) s).cursor = s.cursor ∧
      (ts.foldl (fun s t =>
          if s.storage_type == STORAGE_TYPE_SESSION &&
              TASK_STORE_ONLY_CONTAINER_TYPES.contains t then s
          else if s.storage_type == STORAGE_TYPE_TASK &&
              SESSION_STORE_ONLY_CONTAINER_TYPES.contains t then s
          else if !(SQLiteStorageFile.HasTable s t) then
            SQLiteStorageFile.CreateAttributeContainerTable s t
          else s) s).read_only = s.read_only := by
  induction ts with
  | nil =>
    intro s
    exact ⟨fun t => rfl, rfl, rfl, rfl, rfl⟩
  | cons t0 rest ih =>
    intro s
    rw [List.foldl_cons]
    constructor
    · intro t
      refine ((ih _).1 t).trans ?_
      split_ifs <;> first | rfl | exact rowsLen_createTable s t0 t
    · refine ⟨((ih _).2.1).trans ?_, ((ih _).2.2.1).trans ?_,
        ((ih _).2.2.2.1).trans ?_, ((ih _).2.2.2.2).trans ?_⟩ <;>
        (split_ifs <;> rfl)

theorem createMissingTables_preserves (st : SQLiteStorageFile.State) :
    (∀ t, rowsLen (SQLiteStorageFile.createMissingTables st) t = rowsLen st t) ∧
    (SQLiteStorageFile.createMissingTables st).sequence_numbers = st.sequence_numbers ∧
    (SQLiteStorageFile.createMissingTables st).is_open = st.is_open ∧
    (SQLiteStorageFile.createMissingTables st).cursor = st.cursor ∧
    (SQLiteStorageFile.createMissingTables st).read_only = st.read_only := by
  unfold SQLiteStorageFile.createMissingTables
  exact createFold_preserves _ st

theorem setCounters_ok : ∀ (ts : List String) (st st' : SQLiteStorageFile.State),
    SQLiteStorageFile.setCountersFromRowCounts st ts = .ok st' →
    (∀ t, t ∉ ts → seqValue st'.sequence_numbers t = seqValue st.sequence_numbers t) ∧
    (ts.Nodup → ∀ t ∈ ts, t ≠ "metadata" →
      seqValue st'.sequence_numbers t = rowsLen st t) ∧
    st'.tables = st.tables ∧ st'.is_open = st.is_open ∧
    st'.cursor = st.cursor ∧ st'.read_only = st.read_only := by
  intro ts
  induction ts with
  | nil =>
    intro st st' h
    simp only [SQLiteStorageFile.setCountersFromRowCounts] at h
    injection h with h1
    subst h1
    exact ⟨fun t _ => rfl, fun _ t ht => absurd ht (List.not_mem_nil t), rfl, rfl, rfl, rfl⟩
  | cons t0 rest ih =>
    intro st st' h
    simp only [SQLiteStorageFile.setCountersFromRowCounts, Bind.bind, Except.bind] at h
    cases hget : SQLiteStorageFile.GetNumberOfAttributeContainers st t0 with
    | error e =>
      rw [hget] at h
      simp at h
    | ok n =>
      rw [hget] at h
      dsimp only at h
      obtain ⟨hout, hmem, htab, hio, hcu, hro⟩ := ih _ _ h
      refine ⟨?_, ?_, by simpa using htab, by simpa using hio,
        by simpa using hcu, by simpa using hro⟩
      · intro t ht
        have ht0 : t ≠ t0 := fun he => ht (by simp [he])
        have htrest : t ∉ rest := fun he => ht (by simp [he])
        rw [hout t htrest]
        dsimp only
        exact seqValue_set_ne _ _ _ _ ht0
      · intro hnd t ht hmeta
        rcases List.mem_cons.mp ht with he | he
        · subst he
          have htrest : t ∉ rest := (List.nodup_cons.mp hnd).1
          rw [hout t htrest]
          dsimp only
          rw [seqValue_set_self]
          exact (getNumberOf_ok hget hmeta).1
        · have := hmem (List.nodup_cons.mp hnd).2 t he hmeta
          rw [this]
          rfl

set_option maxHeartbeats 1000000 in
theorem open_writable_ok {fs : Option SQLiteStorageFile.DBFile}
    {st' : SQLiteStorageFile.State}
    (h : SQLiteStorageFile.Open (SQLiteStorageFile.new STORAGE_TYPE_SESSION) fs
      (some "store.plaso") false = .ok st') :
    st'.is_open = true ∧ st'.read_only = false ∧ st'.cursor = true ∧
    (∀ t, rowsLen st' t = dbRows fs t) ∧
    (∀ t ∈ SQLiteStorageFile.REFERENCED_CONTAINER_TYPES,
      seqValue st'.sequence_numbers t = dbRows fs t) := by
  unfold SQLiteStorageFile.Open at h
  obtain ⟨u1, hu1, h⟩ := except_bind_ok h
  obtain ⟨u2, hu2, h⟩ := except_bind_ok h
  obtain ⟨db, hdb, h⟩ := except_bind_ok h
  have hdbv : db = fs.getD { metadata := none, tables := [] } := by
    unfold SQLiteStorageFile.sqliteConnect at hdb
    rw [if_neg (by simp)] at hdb
    exact (Except.ok.inj hdb).symm
  have hdbrows : ∀ t, ((alistGet db.tables t).getD []).length = dbRows fs t := by
    intro t
    rw [hdbv]
    cases fs with
    | none => simp [dbRows, alistGet]
    | some db0 => simp [dbRows]
  dsimp only at h
  rw [if_neg (by simp)] at h
  have finish_tail : ∀ (ybase : SQLiteStorageFile.State),
      ybase.tables = db.tables → ybase.is_open = true → ybase.cursor = true →
      ybase.read_only = false →
      SQLiteStorageFile.setCountersFromRowCounts
        (SQLiteStorageFile.createMissingTables ybase)
        SQLiteStorageFile.REFERENCED_CONTAINER_TYPES = .ok st' →
      st'.is_open = true ∧ st'.read_only = false ∧ st'.cursor = true ∧
      (∀ t, rowsLen st' t = dbRows fs t) ∧
      (∀ t ∈ SQLiteStorageFile.REFERENCED_CONTAINER_TYPES,
        seqValue st'.sequence_numbers t = dbRows fs t) := by
    intro ybase htab hio hcu hro hfin
    obtain ⟨hrowsY, hseqY, hioY, hcuY, hroY⟩ := createMissingTables_preserves ybase
    obtain ⟨houtC, hmemC, htabC, hioC, hcuC, hroC⟩ :=
      setCounters_ok SQLiteStorageFile.REFERENCED_CONTAINER_TYPES _ _ hfin
    have hbase : ∀ t, rowsLen ybase t = dbRows fs t := by
      intro t
      unfold rowsLen
      rw [htab]
      exact hdbrows t
    have hrows' : ∀ t, rowsLen st' t = dbRows fs t := by
      intro t
      unfold rowsLen
      rw [htabC]
      exact (hrowsY t).trans (hbase t)
    refine ⟨?_, ?_, ?_, hrows', ?_⟩
    · rw [hioC, hioY, hio]
    · rw [hroC, hroY, hro]
    · rw [hcuC, hcuY, hcu]
    · intro t ht
      have hmeta : t ≠ "metadata" := by
        simp only [SQLiteStorageFile.REFERENCED_CONTAINER_TYPES, List.mem_cons,
          List.not_mem_nil, or_false] at ht
        rcases ht with rfl | rfl | rfl | rfl <;> decide
      rw [hmemC (by decide) t ht hmeta]
      exact (hrowsY t).trans (hbase t)
  split at h
  · obtain ⟨y1, hy1, h⟩ := except_bind_ok h
    obtain ⟨y2, hy2, h⟩ := except_bind_ok h
    obtain ⟨m1, hm1, h⟩ := except_bind_ok h
    obtain ⟨m2, hm2, h⟩ := except_bind_ok h
    have hy1v := Except.ok.inj hy1
    have hy2v := Except.ok.inj hy2
    subst hy1v
    subst hy2v
    exact finish_tail _ rfl rfl rfl rfl h
  · obtain ⟨yr, hyr, h⟩ := except_bind_ok h
    obtain ⟨y1, hy1, h⟩ := except_bind_ok h
    obtain ⟨y2, hy2, h⟩ := except_bind_ok h
    obtain ⟨m1, hm1, h⟩ := except_bind_ok h
    obtain ⟨m2, hm2, h⟩ := except_bind_ok h
    have hy1v := Except.ok.inj hy1
    have hy2v := Except.ok.inj hy2
    subst hy1v
    subst hy2v
    obtain ⟨htabR, hseqR, hioR, hcuR, hroR⟩ := readAndCheck_preserves hyr
    obtain ⟨htabU, hseqU, hioU, hcuU, hroU⟩ :=
      updateVersion_preserves yr
    exact finish_tail _ (htabU.trans htabR) (hioU.trans hioR) (hcuU.trans hcuR)
      (hroU.trans hroR) h
theorem assignedFor_cons (t : String) (p : String × Int) (l : List (String × Int)) :
    SQLiteStorageFile.assignedFor t (p :: l) =
      if p.1 = t then p.2 :: SQLiteStorageFile.assignedFor t l
      else SQLiteStorageFile.assignedFor t l := by
  unfold SQLiteStorageFile.assignedFor
  by_cases h : p.1 = t <;> simp [List.filter_cons, h]

theorem assignedFor_append (t : String) (l1 l2 : List (String × Int)) :
    SQLiteStorageFile.assignedFor t (l1 ++ l2) =
      SQLiteStorageFile.assignedFor t l1 ++ SQLiteStorageFile.assignedFor t l2 := by
  unfold SQLiteStorageFile.assignedFor
  simp [List.filter_append]

theorem rowsLen_set_append {st st' : SQLiteStorageFile.State} {ct : String}
    {rows : List Row} {row : Row}
    (hget : alistGet st.tables ct = some rows)
    (hset : st'.tables = alistSet st.tables ct (rows ++ [row])) (t : String) :
    rowsLen st' t = if t = ct then rowsLen st ct + 1 else rowsLen st t := by
  unfold rowsLen
  rw [hset]
  by_cases h : t = ct
  · subst h
    rw [alistGet_alistSet_self]
    simp [hget]
  · rw [alistGet_alistSet_ne _ _ _ _ h]
    simp [h]

theorem runAdds_spec : ∀ (cs : List Container) (st st' : SQLiteStorageFile.State)
    (pairs : List (String × Int)),
    SQLiteStorageFile.runAdds st cs = .ok (st', pairs) →
    st'.is_open = st.is_open ∧
    (∀ t ∈ SQLiteStorageFile.REFERENCED_CONTAINER_TYPES,
      seqValue st.sequence_numbers t = rowsLen st t →
      seqValue st'.sequence_numbers t = rowsLen st' t ∧
      rowsLen st t ≤ rowsLen st' t ∧
      SQLiteStorageFile.assignedFor t pairs =
        (List.range' (rowsLen st t + 1) (rowsLen st' t - rowsLen st t)).map Int.ofNat) := by
  intro cs
  induction cs with
  | nil =>
    intro st st' pairs h
    simp only [SQLiteStorageFile.runAdds] at h
    injection h with h1
    injection h1 with h1 h2
    subst h1
    subst h2
    refine ⟨rfl, fun t ht hsync => ⟨hsync, le_refl _, ?_⟩⟩
    simp [SQLiteStorageFile.assignedFor]
  | cons c cs ih =>
    intro st st' pairs h
    simp only [SQLiteStorageFile.runAdds, Bind.bind, Except.bind, pure, Except.pure] at h
    cases hadd : SQLiteStorageFile.AddAttributeContainer st c with
    | error e =>
      rw [hadd] at h
      simp at h
    | ok p =>
      rw [hadd] at h
      obtain ⟨st1, c1⟩ := p
      dsimp only at h
      cases hrest : SQLiteStorageFile.runAdds st1 cs with
      | error e =>
        rw [hrest] at h
        simp at h
      | ok q =>
        rw [hrest] at h
        obtain ⟨st2, rest⟩ := q
        dsimp only at h
        injection h with h1
        injection h1 with h1 h2
        subst h1
        subst h2
        obtain ⟨hio, hro, hcu, ⟨rows, row, hget, hset⟩, hseq, hct, hid,
          hio1, hro1, hcu1, _, _, _, _, _⟩ := addAttributeContainer_ok_spec hadd
        obtain ⟨hio2, hmain⟩ := ih st1 st2 rest hrest
        constructor
        · rw [hio2, hio1, hio]
        · intro t ht hsync
          have hrows1 := fun u => rowsLen_set_append hget hset u
          by_cases htc : t = c.container_type
          · have hr1 : rowsLen st1 t = rowsLen st t + 1 := by
              rw [hrows1 t, if_pos htc, ← htc]
            have hsetself : seqValue st1.sequence_numbers t =
                seqValue st.sequence_numbers c.container_type + 1 := by
              rw [hseq, htc, seqValue_set_self]
            have hs1 : seqValue st1.sequence_numbers t = rowsLen st1 t := by
              rw [hsetself, ← htc, hsync, hr1]
            obtain ⟨hsync2, hle2, hassigned2⟩ := hmain t ht hs1
            refine ⟨hsync2, by omega, ?_⟩
            have hpair : SQLiteStorageFile.assignedPair c1 =
                (t, Int.ofNat (rowsLen st t + 1)) := by
              unfold SQLiteStorageFile.assignedPair
              rw [hct, hid]
              simp only [Option.map_some', Option.getD_some, Identifier.sequenceNumber]
              rw [← htc, hsync]
            rw [hpair, assignedFor_cons, if_pos rfl, hassigned2]
            have h2 : rowsLen st2 t - rowsLen st t =
                (rowsLen st2 t - rowsLen st1 t) + 1 := by omega
            rw [h2, List.range'_succ]
            simp [hr1]
          · have hr1 : rowsLen st1 t = rowsLen st t := by
              rw [hrows1 t, if_neg htc]
            have hs1 : seqValue st1.sequence_numbers t = rowsLen st1 t := by
              rw [hseq, seqValue_set_ne _ _ _ _ htc, hr1, hsync]
            obtain ⟨hsync2, hle2, hassigned2⟩ := hmain t ht hs1
            refine ⟨hsync2, by omega, ?_⟩
            have hpairne : ¬ (SQLiteStorageFile.assignedPair c1).1 = t := by
              unfold SQLiteStorageFile.assignedPair
              dsimp only
              rw [hct]
              exact fun he => htc he.symm
            rw [assignedFor_cons, if_neg hpairne, hassigned2, hr1]

theorem close_ok {st st2 : SQLiteStorageFile.State} {db : SQLiteStorageFile.DBFile}
    (h : SQLiteStorageFile.Close st = .ok (st2, db)) :
    st.is_open = true ∧ db.tables = st.tables := by
  unfold SQLiteStorageFile.Close at h
  by_cases h1 : (!st.is_open) = true
  · rw [if_pos h1] at h
    simp at h
  · rw [if_neg h1] at h
    injection h with h2
    injection h2 with h2 h3
    subst h3
    exact ⟨by simpa using h1, rfl⟩

theorem runSession_spec {fs : Option SQLiteStorageFile.DBFile} {adds : List Container}
    {fs' : Option SQLiteStorageFile.DBFile} {pairs : List (String × Int)}
    (h : SQLiteStorageFile.runSession fs adds = .ok (fs', pairs)) :
    ∀ t ∈ SQLiteStorageFile.REFERENCED_CONTAINER_TYPES,
      dbRows fs t ≤ dbRows fs' t ∧
      SQLiteStorageFile.assignedFor t pairs =
        (List.range' (dbRows fs t + 1) (dbRows fs' t - dbRows fs t)).map Int.ofNat := by
  unfold SQLiteStorageFile.runSession at h
  simp only [Bind.bind, Except.bind, pure, Except.pure] at h
  cases hopen : SQLiteStorageFile.Open (SQLiteStorageFile.new STORAGE_TYPE_SESSION) fs
      (some "store.plaso") false with
  | error e =>
    rw [hopen] at h
    simp at h
  | ok st0 =>
    rw [hopen] at h
    dsimp only at h
    obtain ⟨hio0, hro0, hcu0, hrows0, hseq0⟩ := open_writable_ok hopen
    cases hadds : SQLiteStorageFile.runAdds st0 adds with
    | error e =>
      rw [hadds] at h
      simp at h
    | ok q =>
      rw [hadds] at h
      obtain ⟨st1, pairs1⟩ := q
      dsimp only at h
      cases hclose : SQLiteStorageFile.Close st1 with
      | error e =>
        rw [hclose] at h
        simp at h
      | ok r =>
        rw [hclose] at h
        obtain ⟨st2, db⟩ := r
        dsimp only at h
        injection h with h1
        injection h1 with h1 h2
        subst h1
        subst h2
        obtain ⟨hio1, hmain⟩ := runAdds_spec adds st0 st1 pairs1 hadds
        obtain ⟨hio1t, hdbt⟩ := close_ok hclose
        intro t ht
        have hsync0 : seqValue st0.sequence_numbers t = rowsLen st0 t := by
          rw [hseq0 t ht, hrows0 t]
        obtain ⟨hsync1, hle1, hassigned1⟩ := hmain t ht hsync0
        have hdbrows : dbRows (some db) t = rowsLen st1 t := by
          simp only [dbRows]
          unfold rowsLen
          rw [hdbt]
        rw [hdbrows]
        rw [hrows0 t] at hassigned1 hle1
        exact ⟨hle1, hassigned1⟩

theorem runSessions_spec : ∀ (sessions : List (List Container))
    (fs fs' : Option SQLiteStorageFile.DBFile) (pairs : List (String × Int)),
    SQLiteStorageFile.runSessions fs sessions = .ok (fs', pairs) →
    ∀ t ∈ SQLiteStorageFile.REFERENCED_CONTAINER_TYPES,
      dbRows fs t ≤ dbRows fs' t ∧
      SQLiteStorageFile.assignedFor t pairs =
        (List.range' (dbRows fs t + 1) (dbRows fs' t - dbRows fs t)).map Int.ofNat := by
  intro sessions
  induction sessions with
  | nil =>
    intro fs fs' pairs h
    simp only [SQLiteStorageFile.runSessions] at h
    injection h with h1
    injection h1 with h1 h2
    subst h1
    subst h2
    intro t ht
    refine ⟨le_refl _, ?_⟩
    simp [SQLiteStorageFile.assignedFor]
  | cons ses rest ih =>
    intro fs fs' pairs h
    simp only [SQLiteStorageFile.runSessions, Bind.bind, Except.bind, pure,
      Except.pure] at h
    cases hses : SQLiteStorageFile.runSession fs ses with
    | error e =>
      rw [hses] at h
      simp at h
    | ok q =>
      rw [hses] at h
      obtain ⟨fs1, pairs1⟩ := q
      dsimp only at h
      cases hrest : SQLiteStorageFile.runSessions fs1 rest with
      | error e =>
        rw [hrest] at h
        simp at h
      | ok r =>
        rw [hrest] at h
        obtain ⟨fs2, pairs2⟩ := r
        dsimp only at h
        injection h with h1
        injection h1 with h1 h2
        subst h1
        subst h2
        intro t ht
        obtain ⟨hle1, ha1⟩ := runSession_spec hses t ht
        obtain ⟨hle2, ha2⟩ := ih fs1 fs2 pairs2 hrest t ht
        refine ⟨le_trans hle1 hle2, ?_⟩
        rw [assignedFor_append, ha1, ha2, ← List.map_append]
        congr 1
        have harg : dbRows fs t + 1 + 1 * (dbRows fs1 t - dbRows fs t) =
            dbRows fs1 t + 1 := by omega
        have hsum : dbRows fs2 t - dbRows fs1 t + (dbRows fs1 t - dbRows fs t) =
            dbRows fs2 t - dbRows fs t := by omega
        rw [← hsum, ← List.range'_append, harg]

theorem lawfulOfDecEq (α : Type) [inst : DecidableEq α] :
    @LawfulBEq α (@instBEqOfDecidableEq α inst) :=
  @LawfulBEq.mk α (@instBEqOfDecidableEq α inst)
    (fun h => of_decide_eq_true h) (fun {_} => decide_eq_true rfl)

theorem count_le_one_of_nodup {α : Type} (i : BEq α) (hi : @LawfulBEq α i) :
    ∀ (l : List α), l.Nodup → ∀ a : α, @List.count α i a l ≤ 1 := by
  intro l
  induction l with
  | nil =>
    intro _ a
    exact Nat.zero_le 1
  | cons b t ih =>
    intro hnd a
    have hnd2 := List.nodup_cons.mp hnd
    rw [@List.count_cons α i]
    by_cases hb : b = a
    · rw [if_pos ((@beq_iff_eq α i hi b a).mpr hb)]
      have hzero : @List.count α i a t = 0 :=
        (@List.count_eq_zero α i hi a t).mpr (hb ▸ hnd2.1)
      omega
    · rw [if_neg (fun hc => hb ((@beq_iff_eq α i hi b a).mp hc))]
      have := ih hnd2.2 a
      omega

theorem count_pair_eq_count_snd [BEq (String × Int)] [LawfulBEq (String × Int)]
    [BEq Int] [LawfulBEq Int] :
    ∀ (l : List (String × Int)) (t : String) (k : Int),
    (∀ p ∈ l, p.1 = t) →
    List.count (t, k) l = List.count k (l.map Prod.snd) := by
  intro l t k
  induction l with
  | nil =>
    intro _
    rfl
  | cons p rest ih =>
    intro hall
    have hp : p.1 = t := hall p (by simp)
    rw [List.map_cons, List.count_cons, List.count_cons,
      ih (fun q hq => hall q (by simp [hq]))]
    congr 1
    by_cases hk : p.2 = k
    · have h1 : (p == (t, k)) = true := beq_iff_eq.mpr (Prod.ext hp hk)
      have h2 : (p.2 == k) = true := beq_iff_eq.mpr hk
      simp [h1, h2]
    · have h1 : (p == (t, k)) = false := by
        apply beq_eq_false_iff_ne.mpr
        intro he
        exact hk (congrArg Prod.snd he)
      have h2 : (p.2 == k) = false := beq_eq_false_iff_ne.mpr hk
      simp [h1, h2]

theorem nodup_filter_referenced {pairs : List (String × Int)}
    (h : ∀ t ∈ SQLiteStorageFile.REFERENCED_CONTAINER_TYPES,
      ∃ n, SQLiteStorageFile.assignedFor t pairs = (List.range' 1 n).map Int.ofNat) :
    (pairs.filter (fun p =>
      SQLiteStorageFile.REFERENCED_CONTAINER_TYPES.contains p.1)).Nodup := by
  rw [List.nodup_iff_count_le_one]
  intro a
  have hmain : ∀ (i : BEq (String × Int)), @LawfulBEq _ i →
      @List.count _ i a (pairs.filter (fun p =>
        SQLiteStorageFile.REFERENCED_CONTAINER_TYPES.contains p.1)) ≤ 1 := by
    intro i hi
    by_cases hmem : a.1 ∈ SQLiteStorageFile.REFERENCED_CONTAINER_TYPES
    · obtain ⟨n, hn⟩ := h a.1 hmem
      have hall : ∀ p ∈ pairs.filter (fun p => p.1 == a.1), p.1 = a.1 := by
        intro p hp
        simpa using (List.mem_filter.mp hp).2
      calc @List.count _ i a (pairs.filter (fun p =>
            SQLiteStorageFile.REFERENCED_CONTAINER_TYPES.contains p.1))
          ≤ @List.count _ i a pairs := (List.filter_sublist pairs).count_le a
        _ = @List.count _ i a (pairs.filter (fun p => p.1 == a.1)) :=
            (List.count_filter (by simp)).symm
        _ = List.count a.2 (SQLiteStorageFile.assignedFor a.1 pairs) := by
            have hc := @count_pair_eq_count_snd i hi _ _
              (pairs.filter (fun p => p.1 == a.1)) a.1 a.2 hall
            rw [Prod.mk.eta] at hc
            exact hc
        _ ≤ 1 := by
            rw [hn]
            exact count_le_one_of_nodup _ inferInstance _
              ((List.nodup_range' _ _).map (fun x y hxy => Int.ofNat.inj hxy)) _
    · have hnotin : a ∉ pairs.filter (fun p =>
          SQLiteStorageFile.REFERENCED_CONTAINER_TYPES.contains p.1) := by
        intro hin
        exact hmem (by simpa using (List.mem_filter.mp hin).2)
      rw [(@List.count_eq_zero _ i hi _ _).mpr hnotin]
      exact Nat.zero_le 1
  exact hmain _ (lawfulOfDecEq _)

/-- C1 counterexample: two sessions against the same durable store file, each
adding one event tag, both assign the pair (event_tag, 1). Open initializes
counters only for the referenced container types (event, event_data,
event_data_stream, event_source), so the event_tag counter restarts at 0 on
re-open and the identifier is reused, refuting the claim for every container
type. -/
theorem event_tag_identifier_reuse_counterexample :
    (SQLiteStorageFile.runSessions none [[demoTag "a"], [demoTag "a"]]).isOk = true ∧
    pairsOf (SQLiteStorageFile.runSessions none [[demoTag "a"], [demoTag "a"]]) =
      [("event_tag", 1), ("event_tag", 1)] ∧
    ¬ (pairsOf (SQLiteStorageFile.runSessions none
        [[demoTag "a"], [demoTag "a"]])).Nodup := by
  refine ⟨by decide, by decide, by decide⟩

/-- C1 (amended to the referenced container types): for the durable store,
after any successful sequence of open/add/close sessions starting from no
file, (1) a further writable Open initializes the sequence counter of every
referenced container type (event, event_data, event_data_stream,
event_source) from the current row count of that type's table, and (2) the
(type, sequence number) pairs assigned across the whole trace to containers
of referenced types are pairwise distinct: those identifiers are never
reused. -/
theorem open_counters_and_no_identifier_reuse_referenced
    (sessions : List (List Container)) (fs' : Option SQLiteStorageFile.DBFile)
    (pairs : List (String × Int))
    (h : SQLiteStorageFile.runSessions none sessions = .ok (fs', pairs)) :
    (∀ st', SQLiteStorageFile.Open (SQLiteStorageFile.new STORAGE_TYPE_SESSION)
        fs' (some "store.plaso") false = .ok st' →
      ∀ t ∈ SQLiteStorageFile.REFERENCED_CONTAINER_TYPES,
        seqValue st'.sequence_numbers t = dbRows fs' t) ∧
    (pairs.filter (fun p =>
      SQLiteStorageFile.REFERENCED_CONTAINER_TYPES.contains p.1)).Nodup := by
  constructor
  · intro st' hopen t ht
    exact (open_writable_ok hopen).2.2.2.2 t ht
  · apply nodup_filter_referenced
    intro t ht
    obtain ⟨hle, ha⟩ := runSessions_spec sessions none fs' pairs h t ht
    exact ⟨dbRows fs' t, by simpa [dbRows] using ha⟩

theorem open_counters_and_no_identifier_reuse_referenced_witness :
    ((pairsOf c1run).filter (fun p =>
      SQLiteStorageFile.REFERENCED_CONTAINER_TYPES.contains p.1)).Nodup :=
  (open_counters_and_no_identifier_reuse_referenced
    [[demoEventSource], [demoEventSource]] c1fs (pairsOf c1run) (by rfl)).2

theorem alistGet_none_of_not_mem {β : Type} :
    ∀ (l : List (String × β)) (k : String), k ∉ l.map Prod.fst →
      alistGet l k = none := by
  intro l k
  induction l with
  | nil => intro _; rfl
  | cons p rest ih =>
    intro hk
    simp only [List.map_cons, List.mem_cons, not_or] at hk
    rw [alistGet_cons, if_neg (fun h => hk.1 h.symm)]
    exact ih hk.2

theorem updateBeforeSerialize_error_of_unsupported {c : Container}
    {rt an sn : String}
    (hmap : SQLiteStorageFile.CONTAINER_SCHEMA_IDENTIFIER_MAPPINGS
      c.container_type = [(rt, an, sn)])
    (hbad : ∀ t n, getattr c an ≠ some (.ident (.sqlTable t n))) :
    SQLiteStorageFile.UpdateAttributeContainerBeforeSerialize c =
      .error (.ioError "Unsupported attribute container identifier type") := by
  simp only [SQLiteStorageFile.UpdateAttributeContainerBeforeSerialize, hmap]
  have hcond : (!List.isEmpty [(rt, an, sn)]) = true := rfl
  rw [if_pos hcond]
  simp only [SQLiteStorageFile.applyIdentifierMappings]

theorem updateBeforeSerialize_rewrites {c : Container} {rt an sn t : String}
    {n : Int}
    (hmap : SQLiteStorageFile.CONTAINER_SCHEMA_IDENTIFIER_MAPPINGS
      c.container_type = [(rt, an, sn)])
    (hg : getattr c an = some (.ident (.sqlTable t n))) :
    SQLiteStorageFile.UpdateAttributeContainerBeforeSerialize c =
      .ok (setattr c sn (.int n)) := by
  simp only [SQLiteStorageFile.UpdateAttributeContainerBeforeSerialize, hmap]
  have hcond : (!List.isEmpty [(rt, an, sn)]) = true := rfl
  rw [if_pos hcond]
  simp only [SQLiteStorageFile.applyIdentifierMappings, hg]

theorem writeNew_error_of_unsupported {st : SQLiteStorageFile.State}
    {c : Container} {rt an sn : String}
    (hmap : SQLiteStorageFile.CONTAINER_SCHEMA_IDENTIFIER_MAPPINGS
      c.container_type = [(rt, an, sn)])
    (hbad : ∀ t n, getattr c an ≠ some (.ident (.sqlTable t n))) :
    SQLiteStorageFile.WriteNewAttributeContainer st c =
      .error (.ioError "Unsupported attribute container identifier type") := by
  have hupd : SQLiteStorageFile.UpdateAttributeContainerBeforeSerialize
      { c with identifier := some (.sqlTable c.container_type
        (Int.ofNat (seqValue st.sequence_numbers c.container_type + 1))) } =
      .error (.ioError "Unsupported attribute container identifier type") :=
    updateBeforeSerialize_error_of_unsupported hmap hbad
  unfold SQLiteStorageFile.WriteNewAttributeContainer
  simp only [getNextSequenceNumber_eq, Bind.bind, Except.bind, pure, Except.pure,
    throw, throwThe, MonadExceptOf.throw]
  rw [hupd]

theorem writeExisting_error_of_unsupported {st : SQLiteStorageFile.State}
    {c : Container} {rt an sn tid : String} {k : Int}
    (hmap : SQLiteStorageFile.CONTAINER_SCHEMA_IDENTIFIER_MAPPINGS
      c.container_type = [(rt, an, sn)])
    (hbad : ∀ t n, getattr c an ≠ some (.ident (.sqlTable t n)))
    (hid : c.identifier = some (.sqlTable tid k))
    (hschema : (SQLiteStorageFile.CONTAINER_SCHEMAS c.container_type).isEmpty
      = false) :
    SQLiteStorageFile.WriteExistingAttributeContainer st c =
      .error (.ioError "Unsupported attribute container identifier type") := by
  unfold SQLiteStorageFile.WriteExistingAttributeContainer
  rw [hid]
  dsimp only
  rw [if_neg (by simp [hschema])]
  simp only [Bind.bind, Except.bind, throw, throwThe, MonadExceptOf.throw]
  rw [updateBeforeSerialize_error_of_unsupported hmap hbad]

theorem buildSchemaRow_keys :
    ∀ (schema : List (String × String)) (c : Container) (row : Row),
      SQLiteStorageFile.buildSchemaRow schema c = .ok row →
      row.map Prod.fst = schema.map Prod.fst := by
  intro schema c
  induction schema with
  | nil =>
    intro row h
    simp only [SQLiteStorageFile.buildSchemaRow, List.mapM_nil, pure,
      Except.pure] at h
    cases h
    rfl
  | cons p ps ih =>
    intro row h
    simp only [SQLiteStorageFile.buildSchemaRow, List.mapM_cons] at h
    obtain ⟨y, hy, h⟩ := except_bind_ok h
    obtain ⟨v, hv, hy2⟩ := except_bind_ok hy
    obtain ⟨rest, hrest, h⟩ := except_bind_ok h
    have hyv : y = (p.1, v) := by
      have := hy2.symm
      simpa [pure, Except.pure] using this
    have hrow : row = y :: rest := by
      have := h.symm
      simpa [pure, Except.pure] using this
    subst hyv
    subst hrow
    have hih := ih rest hrest
    simp [hih]

theorem identifier_mappings_inv {t : String}
    {ms : List (String × String × String)}
    (h : SQLiteStorageFile.CONTAINER_SCHEMA_IDENTIFIER_MAPPINGS t = ms)
    (hne : ms ≠ []) :
    (t = "event" ∧
      ms = [("event_data", "_event_data_identifier",
        "_event_data_row_identifier")]) ∨
    (t = "event_tag" ∧
      ms = [("event", "_event_identifier", "_event_row_identifier")]) := by
  unfold SQLiteStorageFile.CONTAINER_SCHEMA_IDENTIFIER_MAPPINGS at h
  split at h
  · exact Or.inl ⟨rfl, h.symm⟩
  · exact Or.inr ⟨rfl, h.symm⟩
  · exact absurd h.symm hne

/-- C2: for the durable store and every container whose type declares a
reference mapping (ref_type, runtime_name, serialized_name), writing the
container (add via `_WriteNewAttributeContainer` or update via
`_WriteExistingAttributeContainer`) reads the runtime attribute; when it is
not a row (SQL table) identifier the write raises the unsupported-identifier
IOError, and when it holds a row identifier with sequence number n the
rewrite sets the serialized attribute to n, while the runtime attribute is
not a schema column and is therefore absent from every outbound row built by
the schema write loop. -/
theorem reference_field_rewrite_on_write
    (st : SQLiteStorageFile.State) (c : Container) (rt an sn tid : String)
    (k : Int)
    (hmap : SQLiteStorageFile.CONTAINER_SCHEMA_IDENTIFIER_MAPPINGS
      c.container_type = [(rt, an, sn)]) :
    ((∀ t n, getattr c an ≠ some (.ident (.sqlTable t n))) →
      SQLiteStorageFile.UpdateAttributeContainerBeforeSerialize c =
        .error (.ioError "Unsupported attribute container identifier type") ∧
      SQLiteStorageFile.WriteNewAttributeContainer st c =
        .error (.ioError "Unsupported attribute container identifier type") ∧
      (c.identifier = some (.sqlTable tid k) →
        (SQLiteStorageFile.CONTAINER_SCHEMAS c.container_type).isEmpty = false →
        SQLiteStorageFile.WriteExistingAttributeContainer st c =
          .error
            (.ioError "Unsupported attribute container identifier type"))) ∧
    (∀ t n, getattr c an = some (.ident (.sqlTable t n)) →
      SQLiteStorageFile.UpdateAttributeContainerBeforeSerialize c =
        .ok (setattr c sn (.int n)) ∧
      getattr (setattr c sn (.int n)) sn = some (.int n) ∧
      an ∉ (SQLiteStorageFile.CONTAINER_SCHEMAS c.container_type).map Prod.fst ∧
      (∀ c2 row, SQLiteStorageFile.buildSchemaRow
          (SQLiteStorageFile.CONTAINER_SCHEMAS c.container_type) c2 = .ok row →
        rowVal row an = none)) := by
  have hnot : an ∉ (SQLiteStorageFile.CONTAINER_SCHEMAS c.container_type).map
      Prod.fst := by
    rcases identifier_mappings_inv hmap (by simp) with ⟨ht, hms⟩ | ⟨ht, hms⟩ <;>
    · injection hms with hhead _
      injection hhead with h1 hpair
      injection hpair with h2 h3
      subst h2
      rw [ht]
      decide
  constructor
  · intro hbad
    exact ⟨updateBeforeSerialize_error_of_unsupported hmap hbad,
      writeNew_error_of_unsupported hmap hbad,
      fun hid hschema =>
        writeExisting_error_of_unsupported hmap hbad hid hschema⟩
  · intro t n hg
    refine ⟨updateBeforeSerialize_rewrites hmap hg, ?_, hnot, ?_⟩
    · simp [getattr, setattr, alistGet_alistSet_self]
    · intro c2 row hrow
      have hkeys := buildSchemaRow_keys _ c2 row hrow
      unfold rowVal
      rw [alistGet_none_of_not_mem row an (by rw [hkeys]; exact hnot)]
      rfl

theorem reference_field_rewrite_on_write_witness :
    SQLiteStorageFile.UpdateAttributeContainerBeforeSerialize (demoTag "a") =
      .ok (setattr (demoTag "a") "_event_row_identifier" (.int 1)) :=
  ((reference_field_rewrite_on_write demoSQLiteState (demoTag "a") "event"
    "_event_identifier" "_event_row_identifier" "event_tag" 1 rfl).2
      "event" 1 rfl).1

theorem evalRowFilter_eqInt_rowVal {row : Row} {col : String} {k : Int}
    (h : SQLiteStorageFile.evalRowFilter (some (.eqInt col k)) row = true) :
    rowVal row col = some (.int k) := by
  simp only [SQLiteStorageFile.evalRowFilter] at h
  cases hv : rowVal row col with
  | none =>
    rw [hv] at h
    simp at h
  | some v =>
    cases v with
    | int x =>
      rw [hv] at h
      dsimp only at h
      have : x = k := by simpa using h
      rw [this]
    | text s =>
      rw [hv] at h
      simp at h

theorem mapM_ok_length {ε α β : Type} (f : α → Except ε β) :
    ∀ (l : List α), (∀ a ∈ l, ∃ b, f a = .ok b) →
      ∃ l', l.mapM f = .ok l' ∧ l'.length = l.length := by
  intro l
  induction l with
  | nil =>
    intro _
    exact ⟨[], rfl, rfl⟩
  | cons a rest ih =>
    intro h
    obtain ⟨b, hb⟩ := h a (by simp)
    obtain ⟨l', hl', hlen⟩ := ih (fun x hx => h x (by simp [hx]))
    refine ⟨b :: l', ?_, by simp [hlen]⟩
    rw [List.mapM_cons, hb, hl']
    rfl

theorem numbered_filter_length (rows : List Row) (P : Row → Bool) :
    ((rows.enum.map (fun p => (Int.ofNat p.1 + 1, p.2))).filter
      (fun p => P p.2)).length = (rows.filter P).length := by
  rw [List.filter_map, List.length_map]
  have h := congrArg List.length (enumFrom_filter_map_snd P 0 rows)
  rw [List.length_map] at h
  exact h

theorem getattr_withRowIdentifier (c : Container) (t : String) (j : Int)
    (n : String) : getattr (withRowIdentifier c t j) n = getattr c n := rfl

theorem containerType_withRowIdentifier (c : Container) (t : String)
    (j : Int) : (withRowIdentifier c t j).container_type = c.container_type :=
  rfl

theorem decode_event_tag_row (st : SQLiteStorageFile.State) (row : Row)
    (v : Int) (huse : st.use_schema = true)
    (hval : rowVal row "_event_row_identifier" = some (.int v)) :
    getattr (SQLiteStorageFile.CreatetAttributeContainerFromRow st "event_tag"
      ((SQLiteStorageFile.CONTAINER_SCHEMAS "event_tag").map (·.1)) row)
      "_event_row_identifier" = some (.int v) ∧
    (SQLiteStorageFile.CreatetAttributeContainerFromRow st "event_tag"
      ((SQLiteStorageFile.CONTAINER_SCHEMAS "event_tag").map (·.1))
      row).container_type = "event_tag" := by
  simp only [SQLiteStorageFile.CreatetAttributeContainerFromRow, huse]
  rw [if_pos (by decide)]
  have hcols : (SQLiteStorageFile.CONTAINER_SCHEMAS "event_tag").map
      (fun p => p.1) = ["_event_row_identifier", "labels"] := rfl
  rw [hcols]
  simp only [List.foldl_cons, List.foldl_nil]
  have h1 : SQLiteStorageFile.decodeSchemaColumn
      { container_type := "event_tag", attrs := [], identifier := none }
      (SQLiteStorageFile.CONTAINER_SCHEMAS "event_tag") "_event_row_identifier"
      (rowVal row "_event_row_identifier") =
      setattr { container_type := "event_tag", attrs := [], identifier := none }
        "_event_row_identifier" (.int v) := by
    rw [hval]
    rfl
  rw [h1]
  cases hv2 : rowVal row "labels" with
  | none => exact ⟨rfl, rfl⟩
  | some v2 => cases v2 with
    | int i => exact ⟨rfl, rfl⟩
    | text s2 => exact ⟨rfl, rfl⟩

theorem updateAfter_event_tag_ok {c : Container} {v : Int}
    (hct : c.container_type = "event_tag")
    (hval : getattr c "_event_row_identifier" = some (.int v)) :
    ∃ c2, SQLiteStorageFile.UpdateAttributeContainerAfterDeserialize c =
      .ok c2 := by
  have happ : SQLiteStorageFile.applyIdentifierMappingsAfter c
      [("event", "_event_identifier", "_event_row_identifier")] =
      .ok (delattr (setattr c "_event_identifier"
        (.ident (.sqlTable "event" v))) "_event_row_identifier") := by
    simp only [SQLiteStorageFile.applyIdentifierMappingsAfter, hval]
  exact ⟨delattr (setattr c "_event_identifier"
    (.ident (.sqlTable "event" v))) "_event_row_identifier", by
      unfold SQLiteStorageFile.UpdateAttributeContainerAfterDeserialize
      rw [hct]
      exact happ⟩

set_option maxHeartbeats 1000000 in
/-- C3 (amended): the one-row rule holds only for the durable store: when the
number of stored event-tag rows matching the event's row identifier is not
exactly one (zero, or two as after adding two tags for the same event),
`GetEventTagByEventIdentifier` returns None.  The in-memory store instead
keeps a per-event side index in which the latest written tag overwrites the
previous one, so after a second tag is added the lookup returns that second
tag, not None. -/
theorem event_tag_lookup_one_row_rule
    (st : SQLiteStorageFile.State) (eid : Identifier) (rows : List Row)
    (fst st2 : FakeStore) (c stored : Container) (m : Int)
    (hcur : st.cursor = true) (huse : st.use_schema = true)
    (htab : alistGet st.tables "event_tag" = some rows)
    (hcount : (rows.filter (fun row => SQLiteStorageFile.evalRowFilter
      (some (.eqInt "_event_row_identifier" eid.sequenceNumber)) row)).length
      ≠ 1)
    (hct : c.container_type = "event_tag")
    (hg : Container.GetEventIdentifier c = some (.fake m))
    (hw : FakeStore.WriteNewAttributeContainer fst c = .ok (st2, stored)) :
    SQLiteStorageFile.GetEventTagByEventIdentifier st eid = .ok none ∧
    FakeStore.GetEventTagByEventIdentifier st2 (.fake m) =
      .ok (some stored) := by
  constructor
  · have hsel : ∀ p ∈ (rows.enum.map (fun q => (Int.ofNat q.1 + 1, q.2))).filter
        (fun p => SQLiteStorageFile.evalRowFilter (some (.eqInt
          "_event_row_identifier" eid.sequenceNumber)) p.2),
        ∃ c2, SQLiteStorageFile.UpdateAttributeContainerAfterDeserialize
          (withRowIdentifier (SQLiteStorageFile.CreatetAttributeContainerFromRow
            st "event_tag" ((SQLiteStorageFile.CONTAINER_SCHEMAS
              "event_tag").map (·.1)) p.2) "event_tag" p.1) = .ok c2 := by
      intro p hp
      have hflt := (List.mem_filter.mp hp).2
      have hrv := evalRowFilter_eqInt_rowVal hflt
      obtain ⟨hga, hctr⟩ := decode_event_tag_row st p.2 eid.sequenceNumber huse hrv
      exact updateAfter_event_tag_ok
        (by rw [containerType_withRowIdentifier]; exact hctr)
        (by rw [getattr_withRowIdentifier]; exact hga)
    obtain ⟨l', hmapm, hlen⟩ := mapM_ok_length _ _ hsel
    have hgacf : SQLiteStorageFile.GetAttributeContainersWithFilter st "event_tag"
        ((SQLiteStorageFile.CONTAINER_SCHEMAS "event_tag").map (·.1))
        (some (.eqInt "_event_row_identifier" eid.sequenceNumber)) none =
        .ok l' := by
      unfold SQLiteStorageFile.GetAttributeContainersWithFilter
      simp only [SQLiteStorageFile.requireCursor, hcur, if_true, Bind.bind,
        Except.bind]
      rw [htab]
      exact hmapm
    unfold SQLiteStorageFile.GetEventTagByEventIdentifier
    rw [huse]
    rw [if_neg (show ¬((!true ||
      (SQLiteStorageFile.CONTAINER_SCHEMAS "event_tag").isEmpty) = true)
      by decide)]
    simp only [Bind.bind, Except.bind]
    rw [hgacf]
    dsimp only
    rw [if_pos (by rw [hlen, numbered_filter_length]; exact hcount)]
    rfl
  · unfold FakeStore.WriteNewAttributeContainer at hw
    simp only [getNextSequenceNumber_eq, Bind.bind, Except.bind, pure, Except.pure,
      throw, throwThe, MonadExceptOf.throw, hct] at hw
    rw [if_pos (by decide)] at hw
    have hg2 : Container.GetEventIdentifier
        { container_type := "event_tag", attrs := c.attrs,
          identifier := some (.fake (Int.ofNat
            (seqValue fst.sequence_numbers "event_tag" + 1))) } =
        some (.fake m) := hg
    rw [hg2] at hw
    dsimp only at hw
    injection hw with hpair
    injection hpair with h1 h2
    subst h1
    subst h2
    unfold FakeStore.GetEventTagByEventIdentifier
    dsimp only
    rw [alistGet_alistSet_self]

/-- C3 counterexample: in the in-memory store, after opening, adding an
event and then adding two event tags that both reference it, the tag lookup
for the event returns the second tag rather than None: the side index is
overwritten by the second add, refuting the claim for the in-memory
store. -/
theorem fake_second_event_tag_counterexample :
    FakeStore.GetEventTagByEventIdentifier c3fakePost.1 (.fake 1) =
      .ok (some { demoFakeTag "b" with identifier := some (.fake 2) }) ∧
    FakeStore.GetEventTagByEventIdentifier c3fakePost.1 (.fake 1) ≠
      .ok none := by
  refine ⟨by decide, by decide⟩

theorem event_tag_lookup_one_row_rule_witness :
    SQLiteStorageFile.GetEventTagByEventIdentifier c3state
      (.sqlTable "event" 1) = .ok none ∧
    FakeStore.GetEventTagByEventIdentifier c3fakePost.1 (.fake 1) =
      .ok (some c3fakePost.2) :=
  event_tag_lookup_one_row_rule c3state (.sqlTable "event" 1) c3rows
    c3fakePre c3fakePost.1 (demoFakeTag "b") c3fakePost.2 1
    (by decide) (by decide) (by rfl) (by decide) rfl rfl (by rfl)

theorem lexLe_trans : ∀ a b c : Nat × Container, EventHeap.lexLe a b = true →
    EventHeap.lexLe b c = true → EventHeap.lexLe a c = true := by
  intro a b c hab hbc
  simp only [EventHeap.lexLe, Bool.or_eq_true, Bool.and_eq_true,
    decide_eq_true_eq] at hab hbc ⊢
  omega

theorem lexLe_total : ∀ a b : Nat × Container,
    (EventHeap.lexLe a b || EventHeap.lexLe b a) = true := by
  intro a b
  simp only [EventHeap.lexLe, Bool.or_eq_true, Bool.and_eq_true,
    decide_eq_true_eq]
  omega

theorem pushEntries_ok (tr : Option TimeRange)
    (htr : tr = none ∨ ∃ s e, tr = some ⟨some s, some e⟩) :
    ∀ l : List (Nat × Container), (∀ p ∈ l, (p.2.eventTimestamp).isSome) →
      FakeStore.pushEntries tr l =
        .ok (l.filter (fun p => specInRange tr p.2)) := by
  intro l
  induction l with
  | nil =>
    intro _
    rfl
  | cons p rest ih =>
    intro hall
    obtain ⟨ts, hts⟩ :=
      Option.isSome_iff_exists.mp (hall p (by simp))
    have htv : p.2.tsVal = ts := by
      simp [Container.tsVal, hts]
    have hfe : FakeStore.filterEvent tr p.2 = .ok (specInRange tr p.2) := by
      rcases htr with rfl | ⟨s, e, rfl⟩
      · rfl
      · simp only [FakeStore.filterEvent, specInRange, hts, htv,
          Option.getD_some]
        by_cases hlt : ts < s
        · rw [if_pos hlt]
          have hns : ¬ (s ≤ ts) := by omega
          simp [hns]
        · rw [if_neg hlt]
          have hs : s ≤ ts := by omega
          simp [hs]
    simp only [FakeStore.pushEntries, Bind.bind, Except.bind, pure,
      Except.pure, hfe]
    rw [ih (fun q hq => hall q (by simp [hq]))]
    simp only [List.filter_cons]

set_option maxHeartbeats 1000000 in
/-- C4: for the in-memory store with a snapshot of added events, under a time
range with both endpoints (or no range) and integer event timestamps,
`GetSortedEvents` yields exactly the events inside the inclusive range, each
exactly once (a permutation of the filtered insertion-indexed snapshot), in
strictly increasing (timestamp, insertion index) order: ties in timestamp
are returned in insertion order.  The event heap is modelled from the
spec. -/
theorem fake_sorted_events_spec (st : FakeStore) (tr : Option TimeRange)
    (hopen : st.is_open = true)
    (htr : tr = none ∨ ∃ s e, tr = some ⟨some s, some e⟩)
    (hts : ∀ p ∈ (FakeStore.GetAttributeContainers st "event").enum,
      (p.2.eventTimestamp).isSome) :
    ∃ qs : List (Nat × Container),
      FakeStore.GetSortedEvents st tr = .ok (qs.map (fun p => p.2)) ∧
      qs.Perm ((FakeStore.GetAttributeContainers st "event").enum.filter
        (fun p => specInRange tr p.2)) ∧
      qs.Pairwise (fun p q => p.2.tsVal < q.2.tsVal ∨
        (p.2.tsVal = q.2.tsVal ∧ p.1 < q.1)) := by
  have hpush := pushEntries_ok tr htr
    (FakeStore.GetAttributeContainers st "event").enum hts
  refine ⟨((FakeStore.GetAttributeContainers st "event").enum.filter
    (fun p => specInRange tr p.2)).mergeSort EventHeap.lexLe, ?_, ?_, ?_⟩
  · have h1 : FakeStore.GetSortedEvents st tr =
        FakeStore.pushEntries tr
            (FakeStore.GetAttributeContainers st "event").enum >>=
          (fun entries => pure (EventHeap.PopEvents entries)) := by
      unfold FakeStore.GetSortedEvents
      rw [hopen]
      rfl
    rw [h1]
    simp only [Bind.bind, Except.bind, hpush]
    rfl
  · exact List.mergeSort_perm _ _
  · have hsorted := List.sorted_mergeSort lexLe_trans lexLe_total
      ((FakeStore.GetAttributeContainers st "event").enum.filter
        (fun p => specInRange tr p.2))
    have h2 : (((FakeStore.GetAttributeContainers st "event").enum.filter
        (fun p => specInRange tr p.2)).map Prod.fst).Nodup := by
      refine List.Nodup.sublist ((List.filter_sublist _).map Prod.fst) ?_
      rw [List.enum_map_fst]
      exact List.nodup_range _
    have h3 : ((((FakeStore.GetAttributeContainers st "event").enum.filter
        (fun p => specInRange tr p.2)).mergeSort EventHeap.lexLe).map
          Prod.fst).Nodup :=
      (((List.mergeSort_perm _ EventHeap.lexLe).map Prod.fst).symm).nodup h2
    have hne := List.pairwise_map.mp h3
    refine (hsorted.and hne).imp ?_
    intro a b hab
    obtain ⟨hle, hne2⟩ := hab
    simp only [EventHeap.lexLe, Bool.or_eq_true, Bool.and_eq_true,
      decide_eq_true_eq] at hle
    rcases hle with h | ⟨heq, hle2⟩
    · exact Or.inl h
    · exact Or.inr ⟨heq, lt_of_le_of_ne hle2 hne2⟩

theorem fake_sorted_events_spec_witness :
    ∃ qs : List (Nat × Container),
      FakeStore.GetSortedEvents c4fake
        (some ⟨some 0, some 10⟩) = .ok (qs.map (fun p => p.2)) ∧
      qs.Perm ((FakeStore.GetAttributeContainers c4fake "event").enum.filter
        (fun p => specInRange (some ⟨some 0, some 10⟩) p.2)) ∧
      qs.Pairwise (fun p q => p.2.tsVal < q.2.tsVal ∨
        (p.2.tsVal = q.2.tsVal ∧ p.1 < q.1)) :=
  fake_sorted_events_spec c4fake (some ⟨some 0, some 10⟩) (by decide)
    (Or.inr ⟨0, 10, rfl⟩) (by decide)

theorem alistGet_filter_ne {β : Type} (k n : String) (h : k ≠ n) :
    ∀ l : List (String × β),
      alistGet (l.filter (fun p => p.1 != n)) k = alistGet l k := by
  intro l
  induction l with
  | nil => rfl
  | cons p rest ih =>
    simp only [List.filter_cons]
    cases hpn : (p.1 != n) with
    | true =>
      rw [if_pos rfl, alistGet_cons, alistGet_cons]
      by_cases hp : p.1 = k
      · rw [if_pos hp, if_pos hp]
      · rw [if_neg hp, if_neg hp]
        exact ih
    | false =>
      have hpn2 : p.1 = n := by
        simpa using hpn
      rw [if_neg (show ¬(false = true) by decide), alistGet_cons,
        if_neg (show ¬(p.1 = k) from fun hk => h (hk ▸ hpn2))]
      exact ih

theorem getattr_setattr_ne (c : Container) (k k' : String)
    (v : AttributeValue) (h : k' ≠ k) :
    getattr (setattr c k v) k' = getattr c k' :=
  alistGet_alistSet_ne c.attrs k k' v h

theorem getattr_setattr_self (c : Container) (k : String)
    (v : AttributeValue) : getattr (setattr c k v) k = some v :=
  alistGet_alistSet_self c.attrs k v

theorem getattr_delattr_ne (c : Container) (n n' : String) (h : n' ≠ n) :
    getattr (delattr c n) n' = getattr c n' :=
  alistGet_filter_ne n' n h c.attrs

theorem containerType_setattr (c : Container) (k : String)
    (v : AttributeValue) : (setattr c k v).container_type = c.container_type :=
  rfl

theorem decodeSchemaColumn_getattr_ne (c : Container)
    (schema : List (String × String)) (name : String)
    (v : Option SQLValue) (n' : String) (h : n' ≠ name) :
    getattr (SQLiteStorageFile.decodeSchemaColumn c schema name v) n' =
      getattr c n' := by
  cases v with
  | none => rfl
  | some w =>
    rcases w with i | s <;>
      simp only [SQLiteStorageFile.decodeSchemaColumn] <;>
      split_ifs <;>
      exact getattr_setattr_ne c name n' _ h

theorem decodeSchemaColumn_container_type (c : Container)
    (schema : List (String × String)) (name : String)
    (v : Option SQLValue) :
    (SQLiteStorageFile.decodeSchemaColumn c schema name v).container_type =
      c.container_type := by
  cases v with
  | none => rfl
  | some w =>
    rcases w with i | s <;>
      simp only [SQLiteStorageFile.decodeSchemaColumn] <;>
      split_ifs <;>
      rfl

theorem decode_mapped_int (c : Container) (schema : List (String × String))
    (name : String) (x : Int)
    (hdt : (((alistGet schema name).getD "") == "bool") = false)
    (hmap : SQLiteStorageFile.SQLITE_MAPPED_TYPES.contains
      ((alistGet schema name).getD "") = true) :
    SQLiteStorageFile.decodeSchemaColumn c schema name (some (.int x)) =
      setattr c name (.int x) := by
  simp only [SQLiteStorageFile.decodeSchemaColumn]
  rw [if_neg (by simp [hdt]), if_pos hmap]

theorem updateAfter_event_ok {c : Container} {n : Int}
    (hct : c.container_type = "event")
    (hval : getattr c "_event_data_row_identifier" = some (.int n)) :
    SQLiteStorageFile.UpdateAttributeContainerAfterDeserialize c =
      .ok (delattr (setattr c "_event_data_identifier"
        (.ident (.sqlTable "event_data" n))) "_event_data_row_identifier") := by
  have happ : SQLiteStorageFile.applyIdentifierMappingsAfter c
      [("event_data", "_event_data_identifier", "_event_data_row_identifier")] =
      .ok (delattr (setattr c "_event_data_identifier"
        (.ident (.sqlTable "event_data" n))) "_event_data_row_identifier") := by
    simp only [SQLiteStorageFile.applyIdentifierMappingsAfter, hval]
  unfold SQLiteStorageFile.UpdateAttributeContainerAfterDeserialize
  rw [hct]
  exact happ

set_option maxHeartbeats 1000000 in
theorem decode_event_row (st : SQLiteStorageFile.State) (row : Row)
    (n t j : Int) (huse : st.use_schema = true)
    (hid : rowVal row "_event_data_row_identifier" = some (.int n))
    (hts : rowVal row "timestamp" = some (.int t)) :
    ∃ c2, SQLiteStorageFile.UpdateAttributeContainerAfterDeserialize
      (withRowIdentifier (SQLiteStorageFile.CreatetAttributeContainerFromRow
        st "event" ((SQLiteStorageFile.CONTAINER_SCHEMAS "event").map (·.1))
        row) "event" j) = .ok c2 ∧ Container.tsVal c2 = t := by
  have hfold : SQLiteStorageFile.CreatetAttributeContainerFromRow st "event"
      ((SQLiteStorageFile.CONTAINER_SCHEMAS "event").map (·.1)) row =
      SQLiteStorageFile.decodeSchemaColumn
        (setattr (SQLiteStorageFile.decodeSchemaColumn
          (setattr { container_type := "event", attrs := [], identifier := none }
            "_event_data_row_identifier" (.int n))
          (SQLiteStorageFile.CONTAINER_SCHEMAS "event") "date_time"
          (rowVal row "date_time")) "timestamp" (.int t))
        (SQLiteStorageFile.CONTAINER_SCHEMAS "event") "timestamp_desc"
        (rowVal row "timestamp_desc") := by
    simp only [SQLiteStorageFile.CreatetAttributeContainerFromRow, huse]
    rw [if_pos (by decide)]
    have hcols : (SQLiteStorageFile.CONTAINER_SCHEMAS "event").map
        (fun p => p.1) =
        ["_event_data_row_identifier", "date_time", "timestamp",
          "timestamp_desc"] := rfl
    rw [hcols]
    simp only [List.foldl_cons, List.foldl_nil]
    rw [hid, decode_mapped_int _ _ _ _ (by decide) (by decide),
      hts, decode_mapped_int _ _ _ _ (by decide) (by decide)]
  have hts4 : getattr (SQLiteStorageFile.CreatetAttributeContainerFromRow st
      "event" ((SQLiteStorageFile.CONTAINER_SCHEMAS "event").map (·.1)) row)
      "timestamp" = some (.int t) := by
    rw [hfold,
      decodeSchemaColumn_getattr_ne _ _ _ _ _ (by decide),
      getattr_setattr_self]
  have hid4 : getattr (SQLiteStorageFile.CreatetAttributeContainerFromRow st
      "event" ((SQLiteStorageFile.CONTAINER_SCHEMAS "event").map (·.1)) row)
      "_event_data_row_identifier" = some (.int n) := by
    rw [hfold,
      decodeSchemaColumn_getattr_ne _ _ _ _ _ (by decide),
      getattr_setattr_ne _ _ _ _ (by decide),
      decodeSchemaColumn_getattr_ne _ _ _ _ _ (by decide),
      getattr_setattr_self]
  have hct4 : (SQLiteStorageFile.CreatetAttributeContainerFromRow st
      "event" ((SQLiteStorageFile.CONTAINER_SCHEMAS "event").map (·.1))
      row).container_type = "event" := by
    rw [hfold, decodeSchemaColumn_container_type, containerType_setattr,
      decodeSchemaColumn_container_type, containerType_setattr]
  refine ⟨_, updateAfter_event_ok
    (by rw [containerType_withRowIdentifier]; exact hct4)
    (by rw [getattr_withRowIdentifier]; exact hid4), ?_⟩
  unfold Container.tsVal Container.eventTimestamp
  rw [getattr_delattr_ne _ _ _ (by decide),
    getattr_setattr_ne _ _ _ _ (by decide),
    getattr_withRowIdentifier, hts4]
  rfl

theorem evalBuiltFilter (tr : Option TimeRange) (row : Row) (t : Int)
    (hts : rowVal row "timestamp" = some (.int t)) :
    SQLiteStorageFile.evalRowFilter
      (match tr with
       | none => none
       | some r =>
         let lower := match r.start_timestamp with
           | some s => if s ≠ 0 then some s else none
           | none => none
         let upper := match r.end_timestamp with
           | some e => if e ≠ 0 then some e else none
           | none => none
         match lower, upper with
         | none, none => none
         | _, _ =>
           some (SQLiteStorageFile.RowFilter.tsRange "timestamp" lower upper))
      row = amendedInRange tr t := by
  rcases tr with _ | ⟨os, oe⟩
  · rfl
  · rcases os with _ | s <;> rcases oe with _ | e
    · rfl
    · by_cases he : e = 0
      · subst he
        rfl
      · simp [amendedInRange, SQLiteStorageFile.evalRowFilter,
          SQLiteStorageFile.sqlLe, hts, he]
    · by_cases hs : s = 0
      · subst hs
        rfl
      · simp [amendedInRange, SQLiteStorageFile.evalRowFilter,
          SQLiteStorageFile.sqlGe, hts, hs]
    · by_cases hs : s = 0 <;> by_cases he : e = 0
      · subst hs
        subst he
        rfl
      · subst hs
        simp [amendedInRange, SQLiteStorageFile.evalRowFilter,
          SQLiteStorageFile.sqlLe, hts, he]
      · subst he
        simp [amendedInRange, SQLiteStorageFile.evalRowFilter,
          SQLiteStorageFile.sqlGe, hts, hs]
      · simp [amendedInRange, SQLiteStorageFile.evalRowFilter,
          SQLiteStorageFile.sqlGe, SQLiteStorageFile.sqlLe, hts, hs, he]

theorem isIntCol_exists {row : Row} {col : String}
    (h : isIntCol row col = true) : ∃ x, rowVal row col = some (.int x) := by
  unfold isIntCol at h
  cases hv : rowVal row col with
  | none =>
    rw [hv] at h
    simp at h
  | some w =>
    cases w with
    | int x => exact ⟨x, rfl⟩
    | text s =>
      rw [hv] at h
      simp at h

set_option maxHeartbeats 1000000 in
theorem sorted_events_pipeline (st : SQLiteStorageFile.State)
    (rows : List Row) (fe : Option SQLiteStorageFile.RowFilter)
    (tr : Option TimeRange)
    (hcur : st.cursor = true) (huse : st.use_schema = true)
    (htab : alistGet st.tables "event" = some rows)
    (hwf : ∀ row ∈ rows, isIntCol row "_event_data_row_identifier" = true ∧
      isIntCol row "timestamp" = true)
    (hfeq : ∀ row ∈ rows, SQLiteStorageFile.evalRowFilter fe row =
      amendedInRange tr (rowTs row)) :
    ∃ l, SQLiteStorageFile.GetAttributeContainersWithFilter st "event"
      ((SQLiteStorageFile.CONTAINER_SCHEMAS "event").map (·.1)) fe
      (some "timestamp") = .ok l ∧
      (l.map Container.tsVal).Perm
        ((rows.filter (fun row => amendedInRange tr (rowTs row))).map
          rowTs) := by
  have hmem : ∀ p ∈ (rows.enum.map (fun q => (Int.ofNat q.1 + 1, q.2))),
      p.2 ∈ rows := by
    intro p hp
    obtain ⟨q, hq, rfl⟩ := List.mem_map.mp hp
    have h2 : q.2 ∈ List.map Prod.snd rows.enum :=
      List.mem_map_of_mem Prod.snd hq
    rw [List.enum_map_snd] at h2
    exact h2
  have hbody : ∀ p ∈ ((rows.enum.map (fun q => (Int.ofNat q.1 + 1, q.2))).filter
      (fun p => SQLiteStorageFile.evalRowFilter fe p.2)).mergeSort
        (fun p q : Int × Row => SQLiteStorageFile.sqlValLe
          (rowVal p.2 "timestamp") (rowVal q.2 "timestamp")),
      ∃ b, SQLiteStorageFile.UpdateAttributeContainerAfterDeserialize
        (withRowIdentifier (SQLiteStorageFile.CreatetAttributeContainerFromRow
          st "event" ((SQLiteStorageFile.CONTAINER_SCHEMAS "event").map (·.1))
          p.2) "event" p.1) = .ok b ∧
        Container.tsVal b = rowTs p.2 := by
    intro p hp
    have hpn : p ∈ (rows.enum.map (fun q => (Int.ofNat q.1 + 1, q.2))) :=
      (List.mem_filter.mp ((List.mergeSort_perm _ _).mem_iff.mp hp)).1
    obtain ⟨hnr0, htw0⟩ := hwf p.2 (hmem p hpn)
    obtain ⟨nr, hnr⟩ := isIntCol_exists hnr0
    obtain ⟨tw, htw⟩ := isIntCol_exists htw0
    obtain ⟨c2, hc2, htv⟩ := decode_event_row st p.2 nr tw p.1 huse hnr htw
    refine ⟨c2, hc2, ?_⟩
    rw [htv]
    simp [rowTs, htw]
  obtain ⟨l', hmapm, hmap⟩ := mapM_ok_of_forall _ Container.tsVal
    (fun p : Int × Row => rowTs p.2) _ hbody
  refine ⟨l', ?_, ?_⟩
  · unfold SQLiteStorageFile.GetAttributeContainersWithFilter
    simp only [SQLiteStorageFile.requireCursor, hcur, if_true, Bind.bind,
      Except.bind]
    rw [htab]
    exact hmapm
  · rw [hmap]
    have hp1 : ((((rows.enum.map (fun q => (Int.ofNat q.1 + 1, q.2))).filter
        (fun p => SQLiteStorageFile.evalRowFilter fe p.2)).mergeSort
          (fun p q : Int × Row => SQLiteStorageFile.sqlValLe
            (rowVal p.2 "timestamp") (rowVal q.2 "timestamp"))).map
          (fun p => rowTs p.2)).Perm
        (((rows.enum.map (fun q => (Int.ofNat q.1 + 1, q.2))).filter
          (fun p => SQLiteStorageFile.evalRowFilter fe p.2)).map
            (fun p => rowTs p.2)) :=
      (List.mergeSort_perm _ _).map _
    refine hp1.trans ?_
    have hcong : (rows.enum.map (fun q => (Int.ofNat q.1 + 1, q.2))).filter
        (fun p => SQLiteStorageFile.evalRowFilter fe p.2) =
        (rows.enum.map (fun q => (Int.ofNat q.1 + 1, q.2))).filter
          (fun p => amendedInRange tr (rowTs p.2)) :=
      List.filter_congr (fun p hp => hfeq p.2 (hmem p hp))
    rw [hcong, List.filter_map, List.map_map]
    show (((List.enumFrom 0 rows).filter
        (fun q => amendedInRange tr (rowTs q.2))).map
          (fun q => rowTs q.2)).Perm
      ((rows.filter (fun row => amendedInRange tr (rowTs row))).map rowTs)
    have hfin : ((List.enumFrom 0 rows).filter
        (fun q => amendedInRange tr (rowTs q.2))).map (fun q => rowTs q.2) =
        (rows.filter (fun row => amendedInRange tr (rowTs row))).map rowTs := by
      rw [← enumFrom_filter_map_snd
        (fun row => amendedInRange tr (rowTs row)) 0 rows, List.map_map]
      rfl
    rw [hfin]

set_option maxHeartbeats 1000000 in
/-- C5 (amended): the durable `GetSortedEvents` yields exactly the stored
events whose timestamp satisfies the given bounds, except that an endpoint
equal to 0 imposes no bound: Python truthiness drops a 0 endpoint when the
WHERE clause is assembled, so `start_timestamp = 0` does not exclude negative
timestamps (and `end_timestamp = 0` does not exclude positive ones).  An
absent endpoint imposes no bound; any other endpoint bounds inclusively.
The multiset of yielded timestamps equals that of the rows passing the
amended predicate. -/
theorem sqlite_sorted_events_amended_range
    (st : SQLiteStorageFile.State) (tr : Option TimeRange) (rows : List Row)
    (hcur : st.cursor = true) (huse : st.use_schema = true)
    (htab : alistGet st.tables "event" = some rows)
    (hwf : ∀ row ∈ rows, isIntCol row "_event_data_row_identifier" = true ∧
      isIntCol row "timestamp" = true) :
    ∃ l, SQLiteStorageFile.GetSortedEvents st tr = .ok l ∧
      (l.map Container.tsVal).Perm
        ((rows.filter (fun row => amendedInRange tr (rowTs row))).map
          rowTs) := by
  have hgets : SQLiteStorageFile.GetSortedEvents st tr =
      SQLiteStorageFile.GetAttributeContainersWithFilter st "event"
        ((SQLiteStorageFile.CONTAINER_SCHEMAS "event").map (·.1))
        (match tr with
         | none => none
         | some r =>
           let lower := match r.start_timestamp with
             | some s => if s ≠ 0 then some s else none
             | none => none
           let upper := match r.end_timestamp with
             | some e => if e ≠ 0 then some e else none
             | none => none
           match lower, upper with
           | none, none => none
           | _, _ =>
             some (SQLiteStorageFile.RowFilter.tsRange "timestamp" lower
               upper))
        (some "timestamp") := by
    unfold SQLiteStorageFile.GetSortedEvents
    rw [huse]
    rfl
  rw [hgets]
  refine sorted_events_pipeline st rows _ tr hcur huse htab hwf ?_
  intro row hrow
  obtain ⟨tw, htw⟩ := isIntCol_exists (hwf row hrow).2
  have h2 : rowTs row = tw := by simp [rowTs, htw]
  rw [h2]
  exact evalBuiltFilter tr row tw htw

theorem sqlite_sorted_events_amended_range_witness :
    ∃ l, SQLiteStorageFile.GetSortedEvents c5state
      (some ⟨some 20, some 40⟩) = .ok l ∧
      (l.map Container.tsVal).Perm
        ((c5rows.filter (fun row => amendedInRange
          (some ⟨some 20, some 40⟩) (rowTs row))).map rowTs) :=
  sqlite_sorted_events_amended_range c5state (some ⟨some 20, some 40⟩)
    c5rows (by decide) (by decide) (by rfl) (by decide)

set_option maxHeartbeats 1000000 in
/-- C5 counterexample: a durable store holding events with timestamps -5 and
5 under the time range [0, 10] yields both events: the 0 start endpoint is
dropped by Python truthiness, so the event with timestamp -5, which the
claimed inclusive lower bound 0 excludes, is still yielded. -/
theorem sqlite_zero_start_counterexample :
    ∃ l, SQLiteStorageFile.GetSortedEvents c5negState
        (some ⟨some 0, some 10⟩) = .ok l ∧
      (l.map Container.tsVal).Perm [-5, 5] ∧
      ¬ (∀ t ∈ l.map Container.tsVal, 0 ≤ t ∧ t ≤ 10) := by
  have hgets : SQLiteStorageFile.GetSortedEvents c5negState
      (some ⟨some 0, some 10⟩) =
      SQLiteStorageFile.GetAttributeContainersWithFilter c5negState "event"
        ((SQLiteStorageFile.CONTAINER_SCHEMAS "event").map (·.1))
        (some (SQLiteStorageFile.RowFilter.tsRange "timestamp" none
          (some 10)))
        (some "timestamp") := by
    unfold SQLiteStorageFile.GetSortedEvents
    rfl
  obtain ⟨l, hl, hperm⟩ := sorted_events_pipeline c5negState c5negRows
    (some (SQLiteStorageFile.RowFilter.tsRange "timestamp" none (some 10)))
    (some ⟨some 0, some 10⟩) (by decide) (by decide) (by rfl) (by decide)
    (by decide)
  have hfil : (c5negRows.filter (fun row => amendedInRange
      (some ⟨some 0, some 10⟩) (rowTs row))).map rowTs = [-5, 5] := by decide
  rw [hfil] at hperm
  refine ⟨l, by rw [hgets]; exact hl, hperm, ?_⟩
  intro hall
  have hm : (-5 : Int) ∈ l.map Container.tsVal :=
    hperm.symm.mem_iff.mp (by decide)
  have := hall (-5) hm
  omega

/-- C6 counterexample: the in-memory store performs no open/closed check in
`GetAttributeContainerByIdentifier` (nor in the by-index, iteration, count
or has getters): after open, add and close, the lookup still returns the
stored container instead of raising, refuting the claim that every data
operation fails on a closed store. -/
theorem fake_closed_get_counterexample :
    c6fake.is_open = false ∧
    FakeStore.GetAttributeContainerByIdentifier c6fake "event" (.fake 1) =
      .ok (some { demoEvent 10 with identifier := some (.fake 1) }) ∧
    FakeStore.GetAttributeContainerByIndex c6fake "event" 0 =
      .ok (some { demoEvent 10 with identifier := some (.fake 1) }) ∧
    FakeStore.GetNumberOfAttributeContainers c6fake "event" = 1 ∧
    FakeStore.HasAttributeContainers c6fake "event" = true := by
  refine ⟨by decide, by decide, by decide, by decide, by decide⟩

/-- C6 (amended): the state gating that does hold.  On a closed store the
write operations of both stores, the in-memory sorted-events iterator, and
the durable iterator raise; on a durable store opened read-only both write
operations raise the not-writable IOError.  (The in-memory getters other
than sorted-events perform no open check at all; see the
counterexample.) -/
theorem store_state_gating
    (fst : FakeStore) (sst ssro : SQLiteStorageFile.State) (c : Container)
    (tr : Option TimeRange)
    (hf : fst.is_open = false)
    (hs : sst.is_open = false) (hscur : sst.cursor = false)
    (hro : ssro.is_open = true) (hror : ssro.read_only = true) :
    FakeStore.AddAttributeContainer fst c =
      .error (.ioError "Unable to write to closed storage writer.") ∧
    FakeStore.UpdateAttributeContainer fst c =
      .error (.ioError "Unable to write to closed storage writer.") ∧
    FakeStore.GetSortedEvents fst tr =
      .error (.ioError "Unable to read from closed storage writer.") ∧
    SQLiteStorageFile.AddAttributeContainer sst c =
      .error (.ioError "Unable to write to closed storage file.") ∧
    SQLiteStorageFile.UpdateAttributeContainer sst c =
      .error (.ioError "Unable to write to closed storage file.") ∧
    SQLiteStorageFile.GetAttributeContainers sst "event" =
      .error (.attributeError "NoneType object has no attribute execute") ∧
    SQLiteStorageFile.AddAttributeContainer ssro c =
      .error (.ioError "Unable to write to read-only storage file.") ∧
    SQLiteStorageFile.UpdateAttributeContainer ssro c =
      .error (.ioError "Unable to write to read-only storage file.") := by
  refine ⟨?_, ?_, ?_, ?_, ?_, ?_, ?_, ?_⟩
  · unfold FakeStore.AddAttributeContainer FakeStore.RaiseIfNotWritable
    rw [hf]
    rfl
  · unfold FakeStore.UpdateAttributeContainer FakeStore.RaiseIfNotWritable
    rw [hf]
    rfl
  · unfold FakeStore.GetSortedEvents
    rw [hf]
    rfl
  · unfold SQLiteStorageFile.AddAttributeContainer
      SQLiteStorageFile.RaiseIfNotWritable
    rw [hs]
    rfl
  · unfold SQLiteStorageFile.UpdateAttributeContainer
      SQLiteStorageFile.RaiseIfNotWritable
    rw [hs]
    rfl
  · unfold SQLiteStorageFile.GetAttributeContainers
      SQLiteStorageFile.GetAttributeContainersWithFilter
      SQLiteStorageFile.requireCursor
    rw [hscur]
    rfl
  · unfold SQLiteStorageFile.AddAttributeContainer
      SQLiteStorageFile.RaiseIfNotWritable
    rw [hro, hror]
    rfl
  · unfold SQLiteStorageFile.UpdateAttributeContainer
      SQLiteStorageFile.RaiseIfNotWritable
    rw [hro, hror]
    rfl

theorem store_state_gating_witness :
    FakeStore.AddAttributeContainer c6fake demoEventSource =
      .error (.ioError "Unable to write to closed storage writer.") ∧
    FakeStore.UpdateAttributeContainer c6fake demoEventSource =
      .error (.ioError "Unable to write to closed storage writer.") ∧
    FakeStore.GetSortedEvents c6fake none =
      .error (.ioError "Unable to read from closed storage writer.") ∧
    SQLiteStorageFile.AddAttributeContainer c6closedState demoEventSource =
      .error (.ioError "Unable to write to closed storage file.") ∧
    SQLiteStorageFile.UpdateAttributeContainer c6closedState
      demoEventSource =
      .error (.ioError "Unable to write to closed storage file.") ∧
    SQLiteStorageFile.GetAttributeContainers c6closedState "event" =
      .error (.attributeError "NoneType object has no attribute execute") ∧
    SQLiteStorageFile.AddAttributeContainer c6roState demoEventSource =
      .error (.ioError "Unable to write to read-only storage file.") ∧
    SQLiteStorageFile.UpdateAttributeContainer c6roState demoEventSource =
      .error (.ioError "Unable to write to read-only storage file.") :=
  store_state_gating c6fake c6closedState c6roState demoEventSource none
    (by decide) (by decide) (by decide) (by decide) (by decide)

/-- C9 counterexample: the in-memory update path stores the caller's own
object by reference (no deep copy): after add followed by update, mutating
the caller's object changes what a subsequent get-by-identifier returns,
refuting the claim for the update path. -/
theorem fake_update_no_deepcopy_counterexample :
    FakeStoreRef.GetAttributeContainerByIdentifier c9w1.1 c9st2
      "event_source" (.fake 1) =
      some { demoEventSource with identifier := some (.fake 1) } ∧
    FakeStoreRef.GetAttributeContainerByIdentifier c9mutHeap c9st2
      "event_source" (.fake 1) =
      some (setattr { demoEventSource with identifier := some (.fake 1) }
        "data_type" (.str "mutated")) ∧
    FakeStoreRef.GetAttributeContainerByIdentifier c9mutHeap c9st2
      "event_source" (.fake 1) ≠
      FakeStoreRef.GetAttributeContainerByIdentifier c9w1.1 c9st2
        "event_source" (.fake 1) := by
  refine ⟨by decide, by decide, by decide⟩

set_option maxHeartbeats 1000000 in
/-- C9 (amended to the add path): `_WriteNewAttributeContainer` deep-copies,
so the stored entry of a newly added container lives at a fresh address:
after the add, every mutation of the caller's object leaves the
get-by-identifier result for the new entry unchanged, equal to the
container value at write time.  The update path has no such protection (see
the counterexample). -/
theorem fake_add_deepcopy_frame (h : FakeStoreRef.Heap)
    (st : FakeStoreRef.State) (a : Nat) (h2 : FakeStoreRef.Heap)
    (st2 : FakeStoreRef.State)
    (hlt : a < FakeStoreRef.heapLen h)
    (hw : FakeStoreRef.WriteNewAttributeContainer h st a = .ok (h2, st2)) :
    ∀ x, FakeStoreRef.GetAttributeContainerByIdentifier
      (FakeStoreRef.heapSet h2 a x) st2
      (FakeStoreRef.heapGet h a).container_type
      (.fake (Int.ofNat (seqValue st.sequence_numbers
        (FakeStoreRef.heapGet h a).container_type + 1))) =
      some { FakeStoreRef.heapGet h a with
        identifier := some (.fake (Int.ofNat (seqValue st.sequence_numbers
          (FakeStoreRef.heapGet h a).container_type + 1))) } := by
  intro x
  unfold FakeStoreRef.WriteNewAttributeContainer at hw
  simp only [getNextSequenceNumber_eq, Bind.bind, Except.bind, pure,
    Except.pure, throw, throwThe, MonadExceptOf.throw] at hw
  have hmain : ∀ (hh2 : FakeStoreRef.Heap) (sst2 : FakeStoreRef.State),
      hh2 = List.append (FakeStoreRef.heapSet h a
        { FakeStoreRef.heapGet h a with identifier := some (.fake
          (Int.ofNat (seqValue st.sequence_numbers
            (FakeStoreRef.heapGet h a).container_type + 1))) })
        [{ FakeStoreRef.heapGet h a with identifier := some (.fake
          (Int.ofNat (seqValue st.sequence_numbers
            (FakeStoreRef.heapGet h a).container_type + 1))) }] →
      sst2.attribute_containers = alistSet st.attribute_containers
        (FakeStoreRef.heapGet h a).container_type
        (alistSet ((alistGet st.attribute_containers
          (FakeStoreRef.heapGet h a).container_type).getD [])
          (Identifier.fake (Int.ofNat (seqValue st.sequence_numbers
            (FakeStoreRef.heapGet h a).container_type + 1))).CopyToString
          (FakeStoreRef.heapLen (FakeStoreRef.heapSet h a
            { FakeStoreRef.heapGet h a with identifier := some (.fake
              (Int.ofNat (seqValue st.sequence_numbers
                (FakeStoreRef.heapGet h a).container_type + 1))) }))) →
      FakeStoreRef.GetAttributeContainerByIdentifier
        (FakeStoreRef.heapSet hh2 a x) sst2
        (FakeStoreRef.heapGet h a).container_type
        (.fake (Int.ofNat (seqValue st.sequence_numbers
          (FakeStoreRef.heapGet h a).container_type + 1))) =
        some { FakeStoreRef.heapGet h a with
          identifier := some (.fake (Int.ofNat (seqValue st.sequence_numbers
            (FakeStoreRef.heapGet h a).container_type + 1))) } := by
    intro hh2 sst2 hh hacs
    unfold FakeStoreRef.GetAttributeContainerByIdentifier
    rw [hacs, alistGet_alistSet_self]
    simp only [Option.getD_some]
    rw [alistGet_alistSet_self]
    simp only [Option.map_some']
    have haddr : FakeStoreRef.heapLen (FakeStoreRef.heapSet h a
        { FakeStoreRef.heapGet h a with identifier := some (.fake
          (Int.ofNat (seqValue st.sequence_numbers
            (FakeStoreRef.heapGet h a).container_type + 1))) }) =
        FakeStoreRef.heapLen h := by
      unfold FakeStoreRef.heapLen FakeStoreRef.heapSet
      exact List.length_set h a _
    rw [haddr]
    unfold FakeStoreRef.heapGet FakeStoreRef.heapSet
    rw [hh]
    rw [List.get?_set_ne _ _ (by omega)]
    unfold FakeStoreRef.heapSet
    have hlen2 : (List.set h a { FakeStoreRef.heapGet h a with
        identifier := some (.fake (Int.ofNat (seqValue st.sequence_numbers
          (FakeStoreRef.heapGet h a).container_type + 1))) }).length =
        FakeStoreRef.heapLen h := List.length_set h a _
    rw [← hlen2]
    have hconcat : ∀ (l : List Container) (c : Container),
        (List.append l [c]).get? l.length = some c :=
      fun l c => List.get?_concat_length l c
    rw [hconcat]
    rfl
  split at hw
  · split at hw
    · simp at hw
    · injection hw with hpair
      injection hpair with h1 h2eq
      exact hmain _ _ h1.symm (by rw [← h2eq])
  · injection hw with hpair
    injection hpair with h1 h2eq
    exact hmain _ _ h1.symm (by rw [← h2eq])

theorem fake_add_deepcopy_frame_witness :
    FakeStoreRef.GetAttributeContainerByIdentifier
      (FakeStoreRef.heapSet c9w1.1 0
        (setattr (FakeStoreRef.heapGet c9w1.1 0) "data_type"
          (.str "mutated")))
      c9w1.2 (FakeStoreRef.heapGet c9base 0).container_type
      (.fake (Int.ofNat (seqValue FakeStoreRef.newOpen.sequence_numbers
        (FakeStoreRef.heapGet c9base 0).container_type + 1))) =
      some { FakeStoreRef.heapGet c9base 0 with
        identifier := some (.fake (Int.ofNat (seqValue
          FakeStoreRef.newOpen.sequence_numbers
          (FakeStoreRef.heapGet c9base 0).container_type + 1))) } :=
  fake_add_deepcopy_frame c9base FakeStoreRef.newOpen 0 c9w1.1 c9w1.2
    (by decide) (by rfl)
    (setattr (FakeStoreRef.heapGet c9w1.1 0) "data_type" (.str "mutated"))

end Plaso
